import Mathlib

/-!
# MCP342X driver: result protocol

A shallow embedding of `src/MCP342X.cpp`, the Arduino driver of the Microchip
MCP342x delta-sigma converters on the I2C bus, and theorems about it.

Conventions of the embedding

* `uint8_t` values are natural numbers; a conversion to `uint8_t` is `toUInt8`
  (reduction modulo 256), written wherever the source converts.
* The `TwoWire` object behind `_Wire` is not part of the driver. It is a
  parameter: a record of the five member functions the driver calls, acting on
  a transport state of arbitrary type. Every call the driver makes is also
  appended to a call log carried next to the transport state (`Bus`), so that
  statements about which calls were issued can be written down.
* The object behind `dataPtr` is the sequence of its bytes in memory, index 0
  first, since the source stores into it byte by byte through a `char*`. The
  bytes are read back as an integer in little-endian order, the byte order of
  the Arduino targets, and `>>` on a negative `int32_t` is the arithmetic
  shift of the Arduino compilers.
* The `do ... while` loops of `getResult` need not terminate; they take a
  fuel argument that bounds the number of loop bodies run. A loop whose fuel
  is used up has not returned: it stands before its next body, and the
  embedding says so, with the transport and the sample it has reached
  (`Run.running`). `getResult` itself then has no result (`none`).
-/

/-! ## Constants of `MCP342X.h` -/

/-- Modelled from the spec: the macro `MCP342X_RDY` of the header `MCP342X.h`, which is
not among the sources; the ready bit of the configuration and status byte, `0x80`. -/
def MCP342X_RDY : Nat := 0x80

/-- Modelled from the spec: the macro `MCP342X_CHANNEL_MASK` of the header `MCP342X.h`,
which is not among the sources; the two-bit channel field, `0x60`. -/
def MCP342X_CHANNEL_MASK : Nat := 0x60

/-- Modelled from the spec: the macro `MCP342X_SIZE_MASK` of the header `MCP342X.h`,
which is not among the sources; the two-bit size field, `0x0C`. -/
def MCP342X_SIZE_MASK : Nat := 0x0C

/-- Modelled from the spec: the macro `MCP342X_SIZE_18BIT` of the header `MCP342X.h`,
which is not among the sources; the size field of the 18-bit resolution, `0x0C`. -/
def MCP342X_SIZE_18BIT : Nat := 0x0C

/-! ## Machine integers and memory -/

/-- Conversion of an `int` to `uint8_t` (also the byte stored by an assignment to a
`char` object). -/
def toUInt8 (x : Int) : Nat := (x % 256).toNat

/-- The caller's `int16_t` object as its two bytes in memory. -/
structure Int16Cell where
  /-- The byte `((char*)dataPtr)[0]`. -/
  byte0 : Nat
  /-- The byte `((char*)dataPtr)[1]`. -/
  byte1 : Nat
deriving DecidableEq, Repr

/-- The caller's `int32_t` object as its four bytes in memory. -/
structure Int32Cell where
  /-- The byte `((char*)dataPtr)[0]`. -/
  byte0 : Nat
  /-- The byte `((char*)dataPtr)[1]`. -/
  byte1 : Nat
  /-- The byte `((char*)dataPtr)[2]`. -/
  byte2 : Nat
  /-- The byte `((char*)dataPtr)[3]`. -/
  byte3 : Nat
deriving DecidableEq, Repr

/-- The value of an `int16_t` object (little-endian two's complement). -/
def Int16Cell.toInt (m : Int16Cell) : Int :=
  let u : Int := m.byte0 + 256 * m.byte1
  if u < 32768 then u else u - 65536

/-- The value of an `int32_t` object (little-endian two's complement). -/
def Int32Cell.toInt (m : Int32Cell) : Int :=
  let u : Int := m.byte0 + 256 * m.byte1 + 65536 * m.byte2 + 16777216 * m.byte3
  if u < 2147483648 then u else u - 4294967296

/-- The bytes of an `int32_t` object holding the value `v`. -/
def Int32Cell.ofInt (v : Int) : Int32Cell :=
  let u : Nat := (v % 4294967296).toNat
  { byte0 := u % 256, byte1 := u / 256 % 256, byte2 := u / 65536 % 256,
    byte3 := u / 16777216 % 256 }

/-- The statement `*dataPtr = (*dataPtr)>>8;`. -/
def Int32Cell.shiftRight8 (m : Int32Cell) : Int32Cell :=
  Int32Cell.ofInt (Int.shiftRight m.toInt 8)

/-! ## The transport -/

/-- The member functions of `TwoWire` that the driver calls, over a transport state `σ`.
Functions with a result return it next to the new state. -/
structure TwoWire (σ : Type) where
  /-- `beginTransmission(address)`. -/
  beginTransmission : σ → Nat → σ
  /-- `write(data)`. -/
  write : σ → Nat → σ
  /-- `endTransmission()`; the result `0` means success. -/
  endTransmission : σ → Nat × σ
  /-- `requestFrom(address, quantity)`; the result is the number of bytes delivered. -/
  requestFrom : σ → Nat → Nat → Nat × σ
  /-- `read()`; the result is an `int`. -/
  read : σ → Int × σ

/-- A call of the driver to the transport. -/
inductive WireCall where
  | beginTransmission (address : Nat)
  | write (data : Nat)
  | endTransmission
  | requestFrom (address quantity : Nat)
  | read
deriving DecidableEq, Repr

/-- The transport state together with the log of the calls made so far, oldest first. -/
structure Bus (σ : Type) where
  /-- State of the transport. -/
  state : σ
  /-- Calls issued so far. -/
  calls : List WireCall

namespace Bus

variable {σ : Type}

/-- The call `_Wire->beginTransmission(address)`. -/
def beginTransmission (w : TwoWire σ) (b : Bus σ) (address : Nat) : Bus σ :=
  { state := w.beginTransmission b.state address,
    calls := b.calls ++ [WireCall.beginTransmission address] }

/-- The call `_Wire->write(data)`. -/
def write (w : TwoWire σ) (b : Bus σ) (data : Nat) : Bus σ :=
  { state := w.write b.state data, calls := b.calls ++ [WireCall.write data] }

/-- The call `_Wire->endTransmission()`. -/
def endTransmission (w : TwoWire σ) (b : Bus σ) : Nat × Bus σ :=
  ((w.endTransmission b.state).1,
   { state := (w.endTransmission b.state).2, calls := b.calls ++ [WireCall.endTransmission] })

/-- The call `_Wire->requestFrom(address, quantity)`. -/
def requestFrom (w : TwoWire σ) (b : Bus σ) (address quantity : Nat) : Nat × Bus σ :=
  ((w.requestFrom b.state address quantity).1,
   { state := (w.requestFrom b.state address quantity).2,
     calls := b.calls ++ [WireCall.requestFrom address quantity] })

/-- The call `_Wire->read()`. -/
def read (w : TwoWire σ) (b : Bus σ) : Int × Bus σ :=
  ((w.read b.state).1, { state := (w.read b.state).2, calls := b.calls ++ [WireCall.read] })

end Bus

/-! ## The driver -/

/-- The data members of the class `MCP342X` other than the transport handle. -/
structure MCP342X where
  /-- The member `devAddr`. -/
  devAddr : Nat
  /-- The member `configRegShdw`. -/
  configRegShdw : Nat
deriving DecidableEq, Repr

/-- What a member function leaves behind: its return value, the object and the transport. -/
structure Ret (σ α : Type) where
  /-- Return value. -/
  value : α
  /-- The object after the call. -/
  dev : MCP342X
  /-- The transport after the call. -/
  bus : Bus σ

/-- What a read function leaves behind: the returned status, the object behind `dataPtr`,
the driver object and the transport. -/
structure ReadRet (σ μ : Type) where
  /-- Returned status byte. -/
  status : Nat
  /-- The object behind `dataPtr` after the call. -/
  data : μ
  /-- The object after the call. -/
  dev : MCP342X
  /-- The transport after the call. -/
  bus : Bus σ

/-- Where a run of a `getResult` loop stands after a bounded number of loop bodies. -/
inductive Run (σ μ : Type) where
  /-- The function has returned. -/
  | returned (r : ReadRet σ μ)
  /-- The function has not returned: the loop stands before its next body, with this
  transport and this content of the object behind `dataPtr`. -/
  | running (bus : Bus σ) (data : μ)

/-- What the function has returned, if it has. -/
def Run.result {σ μ : Type} : Run σ μ → Option (ReadRet σ μ)
  | Run.returned r => some r
  | Run.running _ _ => none

/-- The transport, with the calls issued so far, at the point the run has reached. -/
def Run.bus {σ μ : Type} : Run σ μ → Bus σ
  | Run.returned r => r.bus
  | Run.running bus _ => bus

namespace MCP342X

variable {σ : Type}

/-- `bool MCP342X::testConnection()`. -/
def testConnection (w : TwoWire σ) (dev : MCP342X) (bus : Bus σ) : Ret σ Bool :=
  let bus := bus.beginTransmission w dev.devAddr
  let r := bus.endTransmission w
  { value := r.1 == 0, dev := dev, bus := r.2 }

/-- `void MCP342X::configure(uint8_t configData)`. -/
def configure (dev : MCP342X) (configData : Nat) : MCP342X :=
  { dev with configRegShdw := configData }

/-- `uint8_t MCP342X::getConfigRegShdw(void)`. -/
def getConfigRegShdw (dev : MCP342X) : Nat :=
  dev.configRegShdw

/-- `bool MCP342X::startConversion(void)`. -/
def startConversion (w : TwoWire σ) (dev : MCP342X) (bus : Bus σ) : Ret σ Bool :=
  let bus := bus.beginTransmission w dev.devAddr
  let bus := bus.write w (toUInt8 (Int.lor dev.configRegShdw MCP342X_RDY))
  let r := bus.endTransmission w
  { value := r.1 == 0, dev := dev, bus := r.2 }

/-- The right-hand side of the assignment to `configRegShdw` in
`startConversion(uint8_t channel)`, evaluated in `int` as C does and converted back to
`uint8_t` by the assignment. -/
def substituteChannel (configRegShdw channel : Nat) : Nat :=
  toUInt8 (Int.lor (Int.land configRegShdw (~~~(MCP342X_CHANNEL_MASK : Int)))
    (Int.land channel MCP342X_CHANNEL_MASK))

/-- `bool MCP342X::startConversion(uint8_t channel)`. -/
def startConversion_channel (w : TwoWire σ) (dev : MCP342X) (bus : Bus σ) (channel : Nat) :
    Ret σ Bool :=
  let bus := bus.beginTransmission w dev.devAddr
  let dev := { dev with configRegShdw := substituteChannel dev.configRegShdw channel }
  let bus := bus.write w (toUInt8 (Int.lor dev.configRegShdw MCP342X_RDY))
  let r := bus.endTransmission w
  { value := r.1 == 0, dev := dev, bus := r.2 }

/-- The `do ... while` loop of `getResult(int16_t *dataPtr)`; `fuel` bounds the number of
loop bodies run, and a loop that has used it up is still running. -/
def getResult_int16_loop (w : TwoWire σ) (dev : MCP342X) :
    Nat → Bus σ → Int16Cell → Run σ Int16Cell
  | 0, bus, data => Run.running bus data
  | fuel + 1, bus, data =>
    let r := bus.requestFrom w dev.devAddr 3
    if r.1 = 3 then
      let x1 := r.2.read w
      let data := { data with byte1 := toUInt8 x1.1 }
      let x0 := x1.2.read w
      let data := { data with byte0 := toUInt8 x0.1 }
      let xs := x0.2.read w
      let adcStatus := toUInt8 xs.1
      if adcStatus &&& MCP342X_RDY ≠ 0 then getResult_int16_loop w dev fuel xs.2 data
      else Run.returned { status := adcStatus, data := data, dev := dev, bus := xs.2 }
    else Run.returned { status := 0xFF, data := data, dev := dev, bus := r.2 }

/-- `uint8_t MCP342X::getResult(int16_t *dataPtr)`. -/
def getResult_int16 (w : TwoWire σ) (fuel : Nat) (dev : MCP342X) (bus : Bus σ)
    (data : Int16Cell) : Option (ReadRet σ Int16Cell) :=
  if dev.configRegShdw &&& MCP342X_SIZE_MASK = MCP342X_SIZE_18BIT then
    some { status := 0xFF, data := data, dev := dev, bus := bus }
  else (getResult_int16_loop w dev fuel bus data).result

/-- `uint8_t MCP342X::checkforResult(int16_t *dataPtr)`. -/
def checkforResult_int16 (w : TwoWire σ) (dev : MCP342X) (bus : Bus σ) (data : Int16Cell) :
    ReadRet σ Int16Cell :=
  if dev.configRegShdw &&& MCP342X_SIZE_MASK = MCP342X_SIZE_18BIT then
    { status := 0xFF, data := data, dev := dev, bus := bus }
  else
    let r := bus.requestFrom w dev.devAddr 3
    if r.1 = 3 then
      let x1 := r.2.read w
      let data := { data with byte1 := toUInt8 x1.1 }
      let x0 := x1.2.read w
      let data := { data with byte0 := toUInt8 x0.1 }
      let xs := x0.2.read w
      let adcStatus := toUInt8 xs.1
      { status := adcStatus, data := data, dev := dev, bus := xs.2 }
    else { status := 0xFF, data := data, dev := dev, bus := r.2 }

/-- The `do ... while` loop of `getResult(int32_t *dataPtr)` with the two statements that
follow it; `fuel` bounds the number of loop bodies run, and a loop that has used it up is
still running. -/
def getResult_int32_loop (w : TwoWire σ) (dev : MCP342X) :
    Nat → Bus σ → Int32Cell → Run σ Int32Cell
  | 0, bus, data => Run.running bus data
  | fuel + 1, bus, data =>
    let r := bus.requestFrom w dev.devAddr 4
    if r.1 = 4 then
      let x3 := r.2.read w
      let data := { data with byte3 := toUInt8 x3.1 }
      let x2 := x3.2.read w
      let data := { data with byte2 := toUInt8 x2.1 }
      let x1 := x2.2.read w
      let data := { data with byte1 := toUInt8 x1.1 }
      let xs := x1.2.read w
      let adcStatus := toUInt8 xs.1
      if adcStatus &&& MCP342X_RDY ≠ 0 then getResult_int32_loop w dev fuel xs.2 data
      else
        Run.returned { status := adcStatus, data := data.shiftRight8, dev := dev, bus := xs.2 }
    else Run.returned { status := 0xFF, data := data, dev := dev, bus := r.2 }

/-- `uint8_t MCP342X::getResult(int32_t *dataPtr)`. -/
def getResult_int32 (w : TwoWire σ) (fuel : Nat) (dev : MCP342X) (bus : Bus σ)
    (data : Int32Cell) : Option (ReadRet σ Int32Cell) :=
  if dev.configRegShdw &&& MCP342X_SIZE_MASK ≠ MCP342X_SIZE_18BIT then
    some { status := 0xFF, data := data, dev := dev, bus := bus }
  else (getResult_int32_loop w dev fuel bus data).result

/-- `uint8_t MCP342X::checkforResult(int32_t *dataPtr)`. -/
def checkforResult_int32 (w : TwoWire σ) (dev : MCP342X) (bus : Bus σ) (data : Int32Cell) :
    ReadRet σ Int32Cell :=
  if dev.configRegShdw &&& MCP342X_SIZE_MASK ≠ MCP342X_SIZE_18BIT then
    { status := 0xFF, data := data, dev := dev, bus := bus }
  else
    let r := bus.requestFrom w dev.devAddr 4
    if r.1 = 4 then
      let x3 := r.2.read w
      let data := { data with byte3 := toUInt8 x3.1 }
      let x2 := x3.2.read w
      let data := { data with byte2 := toUInt8 x2.1 }
      let x1 := x2.2.read w
      let data := { data with byte1 := toUInt8 x1.1 }
      let xs := x1.2.read w
      let adcStatus := toUInt8 xs.1
      { status := adcStatus, data := data.shiftRight8, dev := dev, bus := xs.2 }
    else { status := 0xFF, data := data, dev := dev, bus := r.2 }

end MCP342X

/-! ## Behaviour of a transport

The driver never looks into the transport; what a statement assumes about the transport
is said with the predicates below, all in terms of the results of the transport's own
functions. -/

namespace TwoWire

variable {σ : Type}

/-- Successive `read` calls from state `s` return the bytes `bytes`, in this order. -/
def readsGive (w : TwoWire σ) : σ → List Nat → Prop
  | _, [] => True
  | s, b :: bs => b < 256 ∧ (w.read s).1 = (b : Int) ∧ readsGive w (w.read s).2 bs

/-- The transport state after `k` calls of `read` from state `s`. -/
def afterReads (w : TwoWire σ) : Nat → σ → σ
  | 0, s => s
  | k + 1, s => afterReads w k (w.read s).2

/-- A request for `quantity` bytes from `address` in state `s` reports `quantity` bytes
delivered, and the reads that follow return exactly the bytes `bytes`. -/
def delivers (w : TwoWire σ) (address quantity : Nat) (s : σ) (bytes : List Nat) : Prop :=
  bytes.length = quantity ∧ (w.requestFrom s address quantity).1 = quantity ∧
    w.readsGive (w.requestFrom s address quantity).2 bytes

/-- The transport state after one request for `quantity` bytes and `quantity` reads. -/
def afterPoll (w : TwoWire σ) (address quantity : Nat) (s : σ) : σ :=
  w.afterReads quantity (w.requestFrom s address quantity).2

/-- The transport state after `k` such polls. -/
def afterPolls (w : TwoWire σ) (address quantity : Nat) : Nat → σ → σ
  | 0, s => s
  | k + 1, s => afterPolls w address quantity k (w.afterPoll address quantity s)

/-- Starting in state `s`, the transport answers successive requests for `quantity` bytes
from `address`, each followed by `quantity` reads, with the frames `frames`, in this
order. -/
def answers (w : TwoWire σ) (address quantity : Nat) : σ → List (List Nat) → Prop
  | _, [] => True
  | s, f :: fs =>
    w.delivers address quantity s f ∧ answers w address quantity (w.afterPoll address quantity s) fs

end TwoWire

/-- The status byte of a frame: its last byte. -/
def frameStatus (frame : List Nat) : Nat := frame.getLastD 0

/-- The calls of `k` polls that each deliver the full count: one `requestFrom` and
`quantity` reads per poll. -/
def pollCalls (address quantity : Nat) : Nat → List WireCall
  | 0 => []
  | k + 1 =>
    WireCall.requestFrom address quantity :: List.replicate quantity WireCall.read ++
      pollCalls address quantity k

/-- The number of `requestFrom` calls in a call log. -/
def requestCount (calls : List WireCall) : Nat :=
  calls.countP fun c => match c with
    | WireCall.requestFrom _ _ => true
    | _ => false

/-- The bytes of the `int16_t` object after the loop body has stored a three-byte frame. -/
def Int16Cell.store (data : Int16Cell) : List Nat → Int16Cell
  | [hi, lo, _] => { data with byte1 := hi, byte0 := lo }
  | _ => data

/-- The bytes of the `int32_t` object after the loop body has stored a four-byte frame. -/
def Int32Cell.store (data : Int32Cell) : List Nat → Int32Cell
  | [b2, b1, b0, _] => { data with byte3 := b2, byte2 := b1, byte1 := b0 }
  | _ => data

/-! ## A scripted transport

A transport stub for concrete runs: it answers the successive read requests with the
frames of a script, and the successive write transactions with the codes of a second
script. -/

/-- State of the scripted transport. -/
structure Script where
  /-- Frames for the coming `requestFrom` calls. -/
  frames : List (List Nat)
  /-- Bytes received and not yet read. -/
  rx : List Nat
  /-- Results of the coming `endTransmission` calls. -/
  codes : List Nat
deriving DecidableEq, Repr

/-- The scripted transport. A request delivers at most the requested number of bytes of
the next frame, and nothing once the script is used up; `read` returns `-1` on an empty
buffer, as `TwoWire::read` does. -/
def scripted : TwoWire Script where
  beginTransmission s _ := s
  write s _ := s
  endTransmission s :=
    match s.codes with
    | [] => (4, s)
    | c :: cs => (c, { s with codes := cs })
  requestFrom s _ quantity :=
    match s.frames with
    | [] => (0, { s with rx := [] })
    | f :: fs => ((f.take quantity).length, { s with frames := fs, rx := f.take quantity })
  read s :=
    match s.rx with
    | [] => (-1, s)
    | b :: bs => ((b : Int), { s with rx := bs })

/-- A bus over the scripted transport with the given frames, in its initial state. -/
def scriptedBus (frames : List (List Nat)) (codes : List Nat) : Bus Script :=
  { state := { frames := frames, rx := [], codes := codes }, calls := [] }

/-- Starting in state `s`, the transport answers the first `busy.length` polls with the
frames `busy`, each with the ready bit set in its status byte, and the next poll with the
frame `final`, whose status byte has the ready bit clear. -/
def TwoWire.readyAfter {σ : Type} (w : TwoWire σ) (address quantity : Nat) (s : σ)
    (busy : List (List Nat)) (final : List Nat) : Prop :=
  w.answers address quantity s (busy ++ [final]) ∧
    (∀ f ∈ busy, frameStatus f &&& MCP342X_RDY ≠ 0) ∧ frameStatus final &&& MCP342X_RDY = 0

/-- The 16-bit two's complement number with high byte `hi` and low byte `lo`. -/
def signed16 (hi lo : Nat) : Int :=
  (hi : Int) * 256 + lo - (if hi < 128 then 0 else 65536)

/-- The 24-bit two's complement number with the bytes `b2`, `b1`, `b0`, highest first. -/
def signed24 (b2 b1 b0 : Nat) : Int :=
  (b2 : Int) * 65536 + b1 * 256 + b0 - (if b2 < 128 then 0 else 16777216)

/-- The number of bytes a request for `quantity` bytes from `address` reports in state
`s`. -/
def TwoWire.pollCount {σ : Type} (w : TwoWire σ) (address quantity : Nat) (s : σ) : Nat :=
  (w.requestFrom s address quantity).1

/-- The value returned by the read number `i` (from 0) after a request in state `s`. -/
def TwoWire.readAt {σ : Type} (w : TwoWire σ) (address quantity : Nat) (s : σ) (i : Nat) :
    Int :=
  (w.read (w.afterReads i (w.requestFrom s address quantity).2)).1

/-- The status byte the driver takes from a poll in state `s`: the last of the `quantity`
reads, converted to `uint8_t`. -/
def TwoWire.pollStatus {σ : Type} (w : TwoWire σ) (address quantity : Nat) (s : σ) : Nat :=
  toUInt8 (w.readAt address quantity s (quantity - 1))

/-- From state `s` on, every poll reports the full count and a status byte with the ready
bit set. -/
def TwoWire.neverReady {σ : Type} (w : TwoWire σ) (address quantity : Nat) (s : σ) : Prop :=
  ∀ k : Nat, w.pollCount address quantity (w.afterPolls address quantity k s) = quantity ∧
    w.pollStatus address quantity (w.afterPolls address quantity k s) &&& MCP342X_RDY ≠ 0

/-- Starting in state `s`, the polls before poll `k` (from 0) report the full count and a
status byte with the ready bit set, and poll `k` reports another count than `quantity`. -/
def TwoWire.failsAtPoll {σ : Type} (w : TwoWire σ) (address quantity : Nat) (s : σ)
    (k : Nat) : Prop :=
  (∀ j : Nat, j < k →
    w.pollCount address quantity (w.afterPolls address quantity j s) = quantity ∧
      w.pollStatus address quantity (w.afterPolls address quantity j s) &&& MCP342X_RDY ≠ 0) ∧
  w.pollCount address quantity (w.afterPolls address quantity k s) ≠ quantity

/-- The bytes of the `int16_t` object after the loop has stored the frames `busy` one after
the other: those of the last frame, or the object as it was when there is no frame. -/
def Int16Cell.afterFrames (data : Int16Cell) (busy : List (List Nat)) : Int16Cell :=
  match busy.getLast? with
  | none => data
  | some f => data.store f

/-- The bytes of the `int32_t` object after the loop has stored the frames `busy` one after
the other: the data bytes of the last frame above the lowest byte of the object, or the
object as it was when there is no frame. -/
def Int32Cell.afterFrames (data : Int32Cell) (busy : List (List Nat)) : Int32Cell :=
  match busy.getLast? with
  | none => data
  | some f => data.store f

/-! ## Auxiliary facts -/

theorem toUInt8_natCast {b : Nat} (h : b < 256) : toUInt8 (b : Int) = b := by
  unfold toUInt8
  omega

theorem toUInt8_lt (x : Int) : toUInt8 x < 256 := by
  unfold toUInt8
  omega

/-- The value left by `>> 8` in a 32-bit object whose three upper bytes are `b0 b1 b2`
(lowest first): the 24-bit two's complement number of these bytes, whatever the lowest
byte `p` of the object was. -/
theorem shiftRight8_toInt (p b0 b1 b2 : Nat) (hp : p < 256) (h0 : b0 < 256) (h1 : b1 < 256)
    (h2 : b2 < 256) :
    (Int32Cell.shiftRight8 { byte0 := p, byte1 := b0, byte2 := b1, byte3 := b2 }).toInt =
      (b2 : Int) * 65536 + b1 * 256 + b0 - (if b2 < 128 then 0 else 16777216) := by
  have hs : ∀ v : Int, Int.shiftRight v 8 = v / 256 := fun v => by
    have h := Int.shiftRight_eq_div_pow v 8
    simpa using h
  simp only [Int32Cell.shiftRight8, Int32Cell.toInt, Int32Cell.ofInt, hs]
  split_ifs <;> omega

/-- The bytes left by `>> 8` are those of the 24-bit two's complement number of the three
upper bytes. -/
theorem shiftRight8_eq_ofInt (p b0 b1 b2 : Nat) (hp : p < 256) (h0 : b0 < 256) (h1 : b1 < 256)
    (h2 : b2 < 256) :
    Int32Cell.shiftRight8 { byte0 := p, byte1 := b0, byte2 := b1, byte3 := b2 } =
      Int32Cell.ofInt
        ((b2 : Int) * 65536 + b1 * 256 + b0 - (if b2 < 128 then 0 else 16777216)) := by
  have hs : ∀ v : Int, Int.shiftRight v 8 = v / 256 := fun v => by
    have h := Int.shiftRight_eq_div_pow v 8
    simpa using h
  have hv : (Int32Cell.toInt { byte0 := p, byte1 := b0, byte2 := b1, byte3 := b2 }) / 256 =
      (b2 : Int) * 65536 + b1 * 256 + b0 - (if b2 < 128 then 0 else 16777216) := by
    simp only [Int32Cell.toInt]
    split_ifs <;> omega
  rw [Int32Cell.shiftRight8, hs, hv]

theorem Run.result_eq_some {σ μ : Type} {x : Run σ μ} {r : ReadRet σ μ}
    (h : x.result = some r) : x = Run.returned r := by
  cases x with
  | returned r0 =>
    have h0 : r0 = r := Option.some.inj h
    rw [h0]
  | running bus data => exact Option.noConfusion h

namespace MCP342X

variable {σ : Type}

/-- One body of the 16-bit loop on a full frame. -/
theorem getResult_int16_loop_frame (w : TwoWire σ) (dev : MCP342X) (fuel : Nat) (bus : Bus σ)
    (data : Int16Cell) (hi lo st : Nat)
    (h : w.delivers dev.devAddr 3 bus.state [hi, lo, st]) :
    getResult_int16_loop w dev (fuel + 1) bus data =
      if st &&& MCP342X_RDY ≠ 0 then
        getResult_int16_loop w dev fuel
          { state := w.afterPoll dev.devAddr 3 bus.state,
            calls := bus.calls ++ pollCalls dev.devAddr 3 1 }
          { byte0 := lo, byte1 := hi }
      else
        Run.returned { status := st, data := { byte0 := lo, byte1 := hi }, dev := dev,
                       bus := { state := w.afterPoll dev.devAddr 3 bus.state,
                                calls := bus.calls ++ pollCalls dev.devAddr 3 1 } } := by
  simp only [TwoWire.delivers, TwoWire.readsGive] at h
  obtain ⟨-, hc, hhi, h1, hlo, h2, hst, h3, -⟩ := h
  simp only [getResult_int16_loop, Bus.requestFrom, Bus.read, hc, h1, h2, h3,
    toUInt8_natCast hhi, toUInt8_natCast hlo, toUInt8_natCast hst, if_true,
    TwoWire.afterPoll, TwoWire.afterReads, pollCalls, List.replicate, List.append_assoc,
    List.singleton_append, List.append_nil, List.cons_append, List.nil_append]

/-- The 16-bit single attempt on a full frame. -/
theorem checkforResult_int16_frame (w : TwoWire σ) (dev : MCP342X) (bus : Bus σ)
    (data : Int16Cell) (hi lo st : Nat)
    (hcfg : dev.configRegShdw &&& MCP342X_SIZE_MASK ≠ MCP342X_SIZE_18BIT)
    (h : w.delivers dev.devAddr 3 bus.state [hi, lo, st]) :
    checkforResult_int16 w dev bus data =
      { status := st, data := { byte0 := lo, byte1 := hi }, dev := dev,
        bus := { state := w.afterPoll dev.devAddr 3 bus.state,
                 calls := bus.calls ++ pollCalls dev.devAddr 3 1 } } := by
  simp only [TwoWire.delivers, TwoWire.readsGive] at h
  obtain ⟨-, hc, hhi, h1, hlo, h2, hst, h3, -⟩ := h
  simp only [checkforResult_int16, if_neg hcfg, Bus.requestFrom, Bus.read, hc, h1, h2, h3,
    toUInt8_natCast hhi, toUInt8_natCast hlo, toUInt8_natCast hst, if_true,
    TwoWire.afterPoll, TwoWire.afterReads, pollCalls, List.replicate, List.append_assoc,
    List.singleton_append, List.append_nil, List.cons_append, List.nil_append]

/-- One body of the 18-bit loop on a full frame. -/
theorem getResult_int32_loop_frame (w : TwoWire σ) (dev : MCP342X) (fuel : Nat) (bus : Bus σ)
    (data : Int32Cell) (b2 b1 b0 st : Nat)
    (h : w.delivers dev.devAddr 4 bus.state [b2, b1, b0, st]) :
    getResult_int32_loop w dev (fuel + 1) bus data =
      if st &&& MCP342X_RDY ≠ 0 then
        getResult_int32_loop w dev fuel
          { state := w.afterPoll dev.devAddr 4 bus.state,
            calls := bus.calls ++ pollCalls dev.devAddr 4 1 }
          { byte0 := data.byte0, byte1 := b0, byte2 := b1, byte3 := b2 }
      else
        Run.returned { status := st,
                       data := Int32Cell.shiftRight8
                         { byte0 := data.byte0, byte1 := b0, byte2 := b1, byte3 := b2 },
                       dev := dev,
                       bus := { state := w.afterPoll dev.devAddr 4 bus.state,
                                calls := bus.calls ++ pollCalls dev.devAddr 4 1 } } := by
  simp only [TwoWire.delivers, TwoWire.readsGive] at h
  obtain ⟨-, hc, h2b, h2, h1b, h1, h0b, h0, hst, h3, -⟩ := h
  simp only [getResult_int32_loop, Bus.requestFrom, Bus.read, hc, h0, h1, h2, h3,
    toUInt8_natCast h2b, toUInt8_natCast h1b, toUInt8_natCast h0b, toUInt8_natCast hst, if_true,
    TwoWire.afterPoll, TwoWire.afterReads, pollCalls, List.replicate, List.append_assoc,
    List.singleton_append, List.append_nil, List.cons_append, List.nil_append]

/-- The 18-bit single attempt on a full frame. -/
theorem checkforResult_int32_frame (w : TwoWire σ) (dev : MCP342X) (bus : Bus σ)
    (data : Int32Cell) (b2 b1 b0 st : Nat)
    (hcfg : dev.configRegShdw &&& MCP342X_SIZE_MASK = MCP342X_SIZE_18BIT)
    (h : w.delivers dev.devAddr 4 bus.state [b2, b1, b0, st]) :
    checkforResult_int32 w dev bus data =
      { status := st,
        data := Int32Cell.shiftRight8
          { byte0 := data.byte0, byte1 := b0, byte2 := b1, byte3 := b2 },
        dev := dev,
        bus := { state := w.afterPoll dev.devAddr 4 bus.state,
                 calls := bus.calls ++ pollCalls dev.devAddr 4 1 } } := by
  simp only [TwoWire.delivers, TwoWire.readsGive] at h
  obtain ⟨-, hc, h2b, h2, h1b, h1, h0b, h0, hst, h3, -⟩ := h
  simp only [checkforResult_int32, ne_eq, hcfg, not_true_eq_false, if_false, Bus.requestFrom,
    Bus.read, hc, h0, h1, h2, h3,
    toUInt8_natCast h2b, toUInt8_natCast h1b, toUInt8_natCast h0b, toUInt8_natCast hst, if_true,
    TwoWire.afterPoll, TwoWire.afterReads, pollCalls, List.replicate, List.append_assoc,
    List.singleton_append, List.append_nil, List.cons_append, List.nil_append]

end MCP342X

namespace TwoWire

variable {σ : Type}

theorem answers_append (w : TwoWire σ) (address quantity : Nat) :
    ∀ (fs gs : List (List Nat)) (s : σ),
      w.answers address quantity s (fs ++ gs) ↔
        w.answers address quantity s fs ∧
          w.answers address quantity (w.afterPolls address quantity fs.length s) gs := by
  intro fs
  induction fs with
  | nil => intro gs s; simp [answers, afterPolls]
  | cons f fs ih =>
    intro gs s
    have h := ih gs (w.afterPoll address quantity s)
    show (w.delivers address quantity s f ∧
        w.answers address quantity (w.afterPoll address quantity s) (fs ++ gs)) ↔ _
    rw [h]
    simp only [answers, List.length_cons, afterPolls, and_assoc]

end TwoWire

theorem pollCalls_add (address quantity : Nat) (j k : Nat) :
    pollCalls address quantity (j + k) =
      pollCalls address quantity j ++ pollCalls address quantity k := by
  induction j with
  | zero => simp [pollCalls]
  | succ j ih =>
    rw [Nat.succ_add]
    simp only [pollCalls, ih, List.cons_append, List.append_assoc]

theorem requestCount_append (xs ys : List WireCall) :
    requestCount (xs ++ ys) = requestCount xs + requestCount ys := by
  simp [requestCount, List.countP_append]

theorem requestCount_replicate_read (k : Nat) :
    requestCount (List.replicate k WireCall.read) = 0 := by
  induction k with
  | zero => rfl
  | succ k ih =>
    rw [List.replicate_succ]
    simp [requestCount, List.countP_cons]

theorem requestCount_pollCalls (address quantity k : Nat) :
    requestCount (pollCalls address quantity k) = k := by
  induction k with
  | zero => rfl
  | succ k ih =>
    have h : pollCalls address quantity (k + 1) =
        [WireCall.requestFrom address quantity] ++
          (List.replicate quantity WireCall.read ++ pollCalls address quantity k) := rfl
    rw [h, requestCount_append, requestCount_append, requestCount_replicate_read, ih]
    simp [requestCount]
    omega

namespace MCP342X

variable {σ : Type}

/-- Polls answered by not-ready frames are consumed by the 16-bit loop one body each. -/
theorem getResult_int16_loop_busy (w : TwoWire σ) (dev : MCP342X) (fuel : Nat) :
    ∀ (busy : List (List Nat)) (bus : Bus σ) (data : Int16Cell),
      (∀ f ∈ busy, frameStatus f &&& MCP342X_RDY ≠ 0) →
      w.answers dev.devAddr 3 bus.state busy →
      getResult_int16_loop w dev (busy.length + fuel) bus data =
        getResult_int16_loop w dev fuel
          { state := w.afterPolls dev.devAddr 3 busy.length bus.state,
            calls := bus.calls ++ pollCalls dev.devAddr 3 busy.length }
          (busy.foldl Int16Cell.store data) := by
  intro busy
  induction busy with
  | nil => intro bus data _ _; simp [TwoWire.afterPolls, pollCalls]
  | cons f fs ih =>
    intro bus data hb ha
    obtain ⟨hd, hrest⟩ := ha
    have hlen : f.length = 3 := hd.1
    match f, hlen with
    | [hi, lo, st], _ =>
      have hst : st &&& MCP342X_RDY ≠ 0 := by
        have := hb [hi, lo, st] (List.mem_cons_self _ _)
        simpa [frameStatus] using this
      have hfuel : (([hi, lo, st] :: fs).length + fuel) = (fs.length + fuel) + 1 := by
        simp only [List.length_cons]; omega
      rw [hfuel, getResult_int16_loop_frame w dev _ bus data hi lo st hd, if_pos hst,
        ih _ _ (fun g hg => hb g (List.mem_cons_of_mem _ hg)) hrest]
      simp only [List.length_cons, TwoWire.afterPolls, List.foldl_cons, Int16Cell.store,
        List.append_assoc, ← pollCalls_add, Nat.add_comm 1]

/-- A poll that does not deliver three bytes ends the 16-bit loop. -/
theorem getResult_int16_loop_short (w : TwoWire σ) (dev : MCP342X) (fuel : Nat) (bus : Bus σ)
    (data : Int16Cell) (h : (w.requestFrom bus.state dev.devAddr 3).1 ≠ 3) :
    getResult_int16_loop w dev (fuel + 1) bus data =
      Run.returned { status := 0xFF, data := data, dev := dev,
                     bus := { state := (w.requestFrom bus.state dev.devAddr 3).2,
                              calls := bus.calls ++ [WireCall.requestFrom dev.devAddr 3] } } := by
  simp only [getResult_int16_loop, Bus.requestFrom, if_neg h]

/-- Polls answered by not-ready frames are consumed by the 18-bit loop one body each. -/
theorem getResult_int32_loop_busy (w : TwoWire σ) (dev : MCP342X) (fuel : Nat) :
    ∀ (busy : List (List Nat)) (bus : Bus σ) (data : Int32Cell),
      (∀ f ∈ busy, frameStatus f &&& MCP342X_RDY ≠ 0) →
      w.answers dev.devAddr 4 bus.state busy →
      getResult_int32_loop w dev (busy.length + fuel) bus data =
        getResult_int32_loop w dev fuel
          { state := w.afterPolls dev.devAddr 4 busy.length bus.state,
            calls := bus.calls ++ pollCalls dev.devAddr 4 busy.length }
          (busy.foldl Int32Cell.store data) := by
  intro busy
  induction busy with
  | nil => intro bus data _ _; simp [TwoWire.afterPolls, pollCalls]
  | cons f fs ih =>
    intro bus data hb ha
    obtain ⟨hd, hrest⟩ := ha
    have hlen : f.length = 4 := hd.1
    match f, hlen with
    | [b2, b1, b0, st], _ =>
      have hst : st &&& MCP342X_RDY ≠ 0 := by
        have := hb [b2, b1, b0, st] (List.mem_cons_self _ _)
        simpa [frameStatus] using this
      have hfuel : (([b2, b1, b0, st] :: fs).length + fuel) = (fs.length + fuel) + 1 := by
        simp only [List.length_cons]; omega
      rw [hfuel, getResult_int32_loop_frame w dev _ bus data b2 b1 b0 st hd, if_pos hst,
        ih _ _ (fun g hg => hb g (List.mem_cons_of_mem _ hg)) hrest]
      simp only [List.length_cons, TwoWire.afterPolls, List.foldl_cons, Int32Cell.store,
        List.append_assoc, ← pollCalls_add, Nat.add_comm 1]

/-- A poll that does not deliver four bytes ends the 18-bit loop. -/
theorem getResult_int32_loop_short (w : TwoWire σ) (dev : MCP342X) (fuel : Nat) (bus : Bus σ)
    (data : Int32Cell) (h : (w.requestFrom bus.state dev.devAddr 4).1 ≠ 4) :
    getResult_int32_loop w dev (fuel + 1) bus data =
      Run.returned { status := 0xFF, data := data, dev := dev,
                     bus := { state := (w.requestFrom bus.state dev.devAddr 4).2,
                              calls := bus.calls ++ [WireCall.requestFrom dev.devAddr 4] } } := by
  simp only [getResult_int32_loop, Bus.requestFrom, if_neg h]

/-- The not-ready polls of the 18-bit loop leave the lowest byte of the sample alone. -/
theorem foldl_store_byte0 (busy : List (List Nat)) :
    ∀ data : Int32Cell, (busy.foldl Int32Cell.store data).byte0 = data.byte0 := by
  induction busy with
  | nil => intro data; rfl
  | cons f fs ih =>
    intro data
    rw [List.foldl_cons, ih]
    unfold Int32Cell.store
    split <;> rfl

end MCP342X

theorem TwoWire.afterPolls_succ {σ : Type} (w : TwoWire σ) (address quantity : Nat) :
    ∀ (k : Nat) (s : σ),
      w.afterPolls address quantity (k + 1) s =
        w.afterPoll address quantity (w.afterPolls address quantity k s) := by
  intro k
  induction k with
  | zero => intro s; rfl
  | succ k ih =>
    intro s
    have h := ih (w.afterPoll address quantity s)
    simp only [TwoWire.afterPolls] at h ⊢
    rw [h]

theorem ldiff_lt_256 {c : Nat} (m : Nat) (hc : c < 256) : Nat.ldiff c m < 256 := by
  have h : Nat.ldiff c m < 2 ^ 8 := by
    apply Nat.lt_pow_two_of_testBit
    intro i hi
    have hci : c < 2 ^ i :=
      lt_of_lt_of_le (show c < 2 ^ 8 from hc) (Nat.pow_le_pow_right (by decide) hi)
    rw [Nat.testBit_ldiff, Nat.testBit_lt_two_pow hci]
    rfl
  exact h

/-- On a byte, clearing the channel bits is masking with the complement byte. -/
theorem ldiff_channel_mask {c : Nat} (hc : c < 256) :
    Nat.ldiff c MCP342X_CHANNEL_MASK = c &&& (0xFF ^^^ MCP342X_CHANNEL_MASK) := by
  apply Nat.eq_of_testBit_eq
  intro i
  rw [Nat.testBit_ldiff, Nat.testBit_and]
  by_cases hi : i < 8
  · have h : Nat.testBit (0xFF ^^^ MCP342X_CHANNEL_MASK) i =
        !(Nat.testBit MCP342X_CHANNEL_MASK i) := by
      interval_cases i <;> decide
    rw [h]
  · have hci : c < 2 ^ i :=
      lt_of_lt_of_le (show c < 2 ^ 8 from hc) (Nat.pow_le_pow_right (by decide) (by omega))
    rw [Nat.testBit_lt_two_pow hci]
    rfl

/-- The C expression for the new configuration byte, without the conversion to
`uint8_t`, is a natural number. -/
theorem substituteChannel_int (c ch : Nat) :
    Int.lor (Int.land c (~~~(MCP342X_CHANNEL_MASK : Int))) (Int.land ch MCP342X_CHANNEL_MASK) =
      ((Nat.ldiff c MCP342X_CHANNEL_MASK ||| (ch &&& MCP342X_CHANNEL_MASK) : Nat) : Int) :=
  rfl

theorem substituteChannel_eq {c : Nat} (ch : Nat) (hc : c < 256) :
    MCP342X.substituteChannel c ch =
      Nat.ldiff c MCP342X_CHANNEL_MASK ||| (ch &&& MCP342X_CHANNEL_MASK) := by
  have h1 : Nat.ldiff c MCP342X_CHANNEL_MASK < 2 ^ 8 := ldiff_lt_256 _ hc
  have h2 : ch &&& MCP342X_CHANNEL_MASK < 2 ^ 8 :=
    Nat.and_lt_two_pow ch (show MCP342X_CHANNEL_MASK < 2 ^ 8 by decide)
  rw [MCP342X.substituteChannel, substituteChannel_int]
  exact toUInt8_natCast (Nat.or_lt_two_pow h1 h2)

theorem substituteChannel_lt (c ch : Nat) : MCP342X.substituteChannel c ch < 256 :=
  toUInt8_lt _

/-- The byte handed to `write`: on a byte `c`, the conversion of `c | MCP342X_RDY`. -/
theorem toUInt8_lor_rdy {c : Nat} (hc : c < 256) :
    toUInt8 (Int.lor c MCP342X_RDY) = c ||| MCP342X_RDY := by
  have h : Int.lor c MCP342X_RDY = ((c ||| MCP342X_RDY : Nat) : Int) := rfl
  rw [h]
  exact toUInt8_natCast
    (Nat.or_lt_two_pow (show c < 2 ^ 8 from hc) (show MCP342X_RDY < 2 ^ 8 by decide))

/-! ### The loops over an arbitrary transport -/

theorem rdy_of_eq_255 {s : Nat} (h : s &&& MCP342X_RDY = 0) : s ≠ 0xFF := by
  intro hs
  rw [hs] at h
  exact absurd h (by decide)

namespace TwoWire

variable {σ : Type}

theorem failsAtPoll_zero (w : TwoWire σ) (address quantity : Nat) (s : σ) :
    w.failsAtPoll address quantity s 0 ↔ w.pollCount address quantity s ≠ quantity := by
  constructor
  · intro h; exact h.2
  · intro h; exact ⟨fun j hj => absurd hj (Nat.not_lt_zero j), h⟩

theorem failsAtPoll_succ (w : TwoWire σ) (address quantity : Nat) (s : σ) (k : Nat) :
    w.failsAtPoll address quantity s (k + 1) ↔
      (w.pollCount address quantity s = quantity ∧
        w.pollStatus address quantity s &&& MCP342X_RDY ≠ 0) ∧
      w.failsAtPoll address quantity (w.afterPoll address quantity s) k := by
  constructor
  · intro h
    refine ⟨h.1 0 (Nat.succ_pos k), fun j hj => ?_, h.2⟩
    exact h.1 (j + 1) (Nat.succ_lt_succ hj)
  · intro h
    refine ⟨fun j hj => ?_, h.2.2⟩
    cases j with
    | zero => exact h.1
    | succ j => exact h.2.1 j (Nat.lt_of_succ_lt_succ hj)

theorem neverReady_afterPoll (w : TwoWire σ) (address quantity : Nat) (s : σ)
    (h : w.neverReady address quantity s) :
    w.neverReady address quantity (w.afterPoll address quantity s) :=
  fun k => h (k + 1)

end TwoWire

namespace MCP342X

variable {σ : Type}

/-- One body of the 16-bit loop, over any transport. -/
theorem getResult_int16_loop_succ (w : TwoWire σ) (dev : MCP342X) (fuel : Nat) (bus : Bus σ)
    (data : Int16Cell) :
    getResult_int16_loop w dev (fuel + 1) bus data =
      if w.pollCount dev.devAddr 3 bus.state = 3 then
        if w.pollStatus dev.devAddr 3 bus.state &&& MCP342X_RDY ≠ 0 then
          getResult_int16_loop w dev fuel
            { state := w.afterPoll dev.devAddr 3 bus.state,
              calls := bus.calls ++ pollCalls dev.devAddr 3 1 }
            { byte0 := toUInt8 (w.readAt dev.devAddr 3 bus.state 1),
              byte1 := toUInt8 (w.readAt dev.devAddr 3 bus.state 0) }
        else
          Run.returned { status := w.pollStatus dev.devAddr 3 bus.state,
                         data := { byte0 := toUInt8 (w.readAt dev.devAddr 3 bus.state 1),
                                   byte1 := toUInt8 (w.readAt dev.devAddr 3 bus.state 0) },
                         dev := dev,
                         bus := { state := w.afterPoll dev.devAddr 3 bus.state,
                                  calls := bus.calls ++ pollCalls dev.devAddr 3 1 } }
      else
        Run.returned { status := 0xFF, data := data, dev := dev,
                       bus := { state := (w.requestFrom bus.state dev.devAddr 3).2,
                                calls := bus.calls ++ [WireCall.requestFrom dev.devAddr 3] } } := by
  simp only [getResult_int16_loop, Bus.requestFrom, Bus.read, TwoWire.pollCount,
    TwoWire.pollStatus, TwoWire.readAt, TwoWire.afterPoll, TwoWire.afterReads, pollCalls,
    List.replicate, List.append_assoc, List.singleton_append, List.append_nil,
    List.cons_append, List.nil_append]

/-- One body of the 18-bit loop, over any transport. -/
theorem getResult_int32_loop_succ (w : TwoWire σ) (dev : MCP342X) (fuel : Nat) (bus : Bus σ)
    (data : Int32Cell) :
    getResult_int32_loop w dev (fuel + 1) bus data =
      if w.pollCount dev.devAddr 4 bus.state = 4 then
        if w.pollStatus dev.devAddr 4 bus.state &&& MCP342X_RDY ≠ 0 then
          getResult_int32_loop w dev fuel
            { state := w.afterPoll dev.devAddr 4 bus.state,
              calls := bus.calls ++ pollCalls dev.devAddr 4 1 }
            { byte0 := data.byte0,
              byte1 := toUInt8 (w.readAt dev.devAddr 4 bus.state 2),
              byte2 := toUInt8 (w.readAt dev.devAddr 4 bus.state 1),
              byte3 := toUInt8 (w.readAt dev.devAddr 4 bus.state 0) }
        else
          Run.returned { status := w.pollStatus dev.devAddr 4 bus.state,
                         data := Int32Cell.shiftRight8
                           { byte0 := data.byte0,
                             byte1 := toUInt8 (w.readAt dev.devAddr 4 bus.state 2),
                             byte2 := toUInt8 (w.readAt dev.devAddr 4 bus.state 1),
                             byte3 := toUInt8 (w.readAt dev.devAddr 4 bus.state 0) },
                         dev := dev,
                         bus := { state := w.afterPoll dev.devAddr 4 bus.state,
                                  calls := bus.calls ++ pollCalls dev.devAddr 4 1 } }
      else
        Run.returned { status := 0xFF, data := data, dev := dev,
                       bus := { state := (w.requestFrom bus.state dev.devAddr 4).2,
                                calls := bus.calls ++ [WireCall.requestFrom dev.devAddr 4] } } := by
  simp only [getResult_int32_loop, Bus.requestFrom, Bus.read, TwoWire.pollCount,
    TwoWire.pollStatus, TwoWire.readAt, TwoWire.afterPoll, TwoWire.afterReads, pollCalls,
    List.replicate, List.append_assoc, List.singleton_append, List.append_nil,
    List.cons_append, List.nil_append]

/-- The 16-bit single attempt under a matching configuration, over any transport. -/
theorem checkforResult_int16_eq (w : TwoWire σ) (dev : MCP342X) (bus : Bus σ)
    (data : Int16Cell)
    (hcfg : dev.configRegShdw &&& MCP342X_SIZE_MASK ≠ MCP342X_SIZE_18BIT) :
    checkforResult_int16 w dev bus data =
      if w.pollCount dev.devAddr 3 bus.state = 3 then
        { status := w.pollStatus dev.devAddr 3 bus.state,
          data := { byte0 := toUInt8 (w.readAt dev.devAddr 3 bus.state 1),
                    byte1 := toUInt8 (w.readAt dev.devAddr 3 bus.state 0) },
          dev := dev,
          bus := { state := w.afterPoll dev.devAddr 3 bus.state,
                   calls := bus.calls ++ pollCalls dev.devAddr 3 1 } }
      else
        { status := 0xFF, data := data, dev := dev,
          bus := { state := (w.requestFrom bus.state dev.devAddr 3).2,
                   calls := bus.calls ++ [WireCall.requestFrom dev.devAddr 3] } } := by
  simp only [checkforResult_int16, if_neg hcfg, Bus.requestFrom, Bus.read, TwoWire.pollCount,
    TwoWire.pollStatus, TwoWire.readAt, TwoWire.afterPoll, TwoWire.afterReads, pollCalls,
    List.replicate, List.append_assoc, List.singleton_append, List.append_nil,
    List.cons_append, List.nil_append]

/-- The 18-bit single attempt under a matching configuration, over any transport. -/
theorem checkforResult_int32_eq (w : TwoWire σ) (dev : MCP342X) (bus : Bus σ)
    (data : Int32Cell)
    (hcfg : dev.configRegShdw &&& MCP342X_SIZE_MASK = MCP342X_SIZE_18BIT) :
    checkforResult_int32 w dev bus data =
      if w.pollCount dev.devAddr 4 bus.state = 4 then
        { status := w.pollStatus dev.devAddr 4 bus.state,
          data := Int32Cell.shiftRight8
            { byte0 := data.byte0,
              byte1 := toUInt8 (w.readAt dev.devAddr 4 bus.state 2),
              byte2 := toUInt8 (w.readAt dev.devAddr 4 bus.state 1),
              byte3 := toUInt8 (w.readAt dev.devAddr 4 bus.state 0) },
          dev := dev,
          bus := { state := w.afterPoll dev.devAddr 4 bus.state,
                   calls := bus.calls ++ pollCalls dev.devAddr 4 1 } }
      else
        { status := 0xFF, data := data, dev := dev,
          bus := { state := (w.requestFrom bus.state dev.devAddr 4).2,
                   calls := bus.calls ++ [WireCall.requestFrom dev.devAddr 4] } } := by
  simp only [checkforResult_int32, ne_eq, hcfg, not_true_eq_false, if_false, Bus.requestFrom,
    Bus.read, TwoWire.pollCount,
    TwoWire.pollStatus, TwoWire.readAt, TwoWire.afterPoll, TwoWire.afterReads, pollCalls,
    List.replicate, List.append_assoc, List.singleton_append, List.append_nil,
    List.cons_append, List.nil_append]

end MCP342X

namespace MCP342X

variable {σ : Type}

/-- What the 16-bit loop returns, when it returns: the object unchanged, and a status that is
`0xFF` exactly when a poll it made reported the wrong count, and has the ready bit clear
otherwise. -/
theorem getResult_int16_loop_some (w : TwoWire σ) (dev : MCP342X) :
    ∀ (fuel : Nat) (bus : Bus σ) (data : Int16Cell) (r : ReadRet σ Int16Cell),
      getResult_int16_loop w dev fuel bus data = Run.returned r →
      r.dev = dev ∧ (r.status = 0xFF ∨ r.status &&& MCP342X_RDY = 0) ∧
        (r.status = 0xFF ↔ ∃ k, w.failsAtPoll dev.devAddr 3 bus.state k) := by
  intro fuel
  induction fuel with
  | zero => intro bus data r h; exact Run.noConfusion h
  | succ fuel ih =>
    intro bus data r h
    rw [getResult_int16_loop_succ] at h
    by_cases hc : w.pollCount dev.devAddr 3 bus.state = 3
    · rw [if_pos hc] at h
      by_cases hs : w.pollStatus dev.devAddr 3 bus.state &&& MCP342X_RDY ≠ 0
      · rw [if_pos hs] at h
        obtain ⟨hd, hor, hiff⟩ := ih _ _ r h
        refine ⟨hd, hor, hiff.trans ⟨?_, ?_⟩⟩
        · rintro ⟨k, hk⟩
          exact ⟨k + 1, (w.failsAtPoll_succ dev.devAddr 3 bus.state k).mpr ⟨⟨hc, hs⟩, hk⟩⟩
        · rintro ⟨k, hk⟩
          cases k with
          | zero => exact absurd hc ((w.failsAtPoll_zero dev.devAddr 3 bus.state).mp hk)
          | succ k => exact ⟨k, ((w.failsAtPoll_succ dev.devAddr 3 bus.state k).mp hk).2⟩
      · rw [if_neg hs] at h
        have hs0 : w.pollStatus dev.devAddr 3 bus.state &&& MCP342X_RDY = 0 := not_not.mp hs
        have hr := Run.returned.inj h
        subst hr
        refine ⟨rfl, Or.inr hs0, ⟨fun h255 => absurd h255 (rdy_of_eq_255 hs0), ?_⟩⟩
        rintro ⟨k, hk⟩
        cases k with
        | zero => exact absurd hc ((w.failsAtPoll_zero dev.devAddr 3 bus.state).mp hk)
        | succ k =>
          exact absurd ((w.failsAtPoll_succ dev.devAddr 3 bus.state k).mp hk).1.2 hs
    · rw [if_neg hc] at h
      have hr := Run.returned.inj h
      subst hr
      exact ⟨rfl, Or.inl rfl,
        ⟨fun _ => ⟨0, (w.failsAtPoll_zero dev.devAddr 3 bus.state).mpr hc⟩, fun _ => rfl⟩⟩

/-- What the 18-bit loop returns, when it returns: the object unchanged, and a status that is
`0xFF` exactly when a poll it made reported the wrong count, and has the ready bit clear
otherwise. -/
theorem getResult_int32_loop_some (w : TwoWire σ) (dev : MCP342X) :
    ∀ (fuel : Nat) (bus : Bus σ) (data : Int32Cell) (r : ReadRet σ Int32Cell),
      getResult_int32_loop w dev fuel bus data = Run.returned r →
      r.dev = dev ∧ (r.status = 0xFF ∨ r.status &&& MCP342X_RDY = 0) ∧
        (r.status = 0xFF ↔ ∃ k, w.failsAtPoll dev.devAddr 4 bus.state k) := by
  intro fuel
  induction fuel with
  | zero => intro bus data r h; exact Run.noConfusion h
  | succ fuel ih =>
    intro bus data r h
    rw [getResult_int32_loop_succ] at h
    by_cases hc : w.pollCount dev.devAddr 4 bus.state = 4
    · rw [if_pos hc] at h
      by_cases hs : w.pollStatus dev.devAddr 4 bus.state &&& MCP342X_RDY ≠ 0
      · rw [if_pos hs] at h
        obtain ⟨hd, hor, hiff⟩ := ih _ _ r h
        refine ⟨hd, hor, hiff.trans ⟨?_, ?_⟩⟩
        · rintro ⟨k, hk⟩
          exact ⟨k + 1, (w.failsAtPoll_succ dev.devAddr 4 bus.state k).mpr ⟨⟨hc, hs⟩, hk⟩⟩
        · rintro ⟨k, hk⟩
          cases k with
          | zero => exact absurd hc ((w.failsAtPoll_zero dev.devAddr 4 bus.state).mp hk)
          | succ k => exact ⟨k, ((w.failsAtPoll_succ dev.devAddr 4 bus.state k).mp hk).2⟩
      · rw [if_neg hs] at h
        have hs0 : w.pollStatus dev.devAddr 4 bus.state &&& MCP342X_RDY = 0 := not_not.mp hs
        have hr := Run.returned.inj h
        subst hr
        refine ⟨rfl, Or.inr hs0, ⟨fun h255 => absurd h255 (rdy_of_eq_255 hs0), ?_⟩⟩
        rintro ⟨k, hk⟩
        cases k with
        | zero => exact absurd hc ((w.failsAtPoll_zero dev.devAddr 4 bus.state).mp hk)
        | succ k =>
          exact absurd ((w.failsAtPoll_succ dev.devAddr 4 bus.state k).mp hk).1.2 hs
    · rw [if_neg hc] at h
      have hr := Run.returned.inj h
      subst hr
      exact ⟨rfl, Or.inl rfl,
        ⟨fun _ => ⟨0, (w.failsAtPoll_zero dev.devAddr 4 bus.state).mpr hc⟩, fun _ => rfl⟩⟩

end MCP342X

theorem TwoWire.answers_length {σ : Type} (w : TwoWire σ) (address quantity : Nat) :
    ∀ (fs : List (List Nat)) (s : σ), w.answers address quantity s fs →
      ∀ f ∈ fs, f.length = quantity := by
  intro fs
  induction fs with
  | nil => intro s _ f hf; exact absurd hf (List.not_mem_nil f)
  | cons g gs ih =>
    intro s h f hf
    rcases List.mem_cons.mp hf with rfl | hf
    · exact h.1.1
    · exact ih _ h.2 f hf

theorem Int16Cell.foldl_store16 (busy : List (List Nat)) (data : Int16Cell)
    (hlen : ∀ f ∈ busy, f.length = 3) :
    busy.foldl Int16Cell.store data = data.afterFrames busy := by
  rcases List.eq_nil_or_concat busy with rfl | ⟨fs, f, rfl⟩
  · rfl
  · have hf : f.length = 3 := hlen f (by simp)
    match f, hf with
    | [hi, lo, st], _ =>
      simp [Int16Cell.afterFrames, Int16Cell.store, List.foldl_append]

theorem Int32Cell.foldl_store32 (busy : List (List Nat)) (data : Int32Cell)
    (hlen : ∀ f ∈ busy, f.length = 4) :
    busy.foldl Int32Cell.store data = data.afterFrames busy := by
  rcases List.eq_nil_or_concat busy with rfl | ⟨fs, f, rfl⟩
  · rfl
  · have hf : f.length = 4 := hlen f (by simp)
    match f, hf with
    | [b2, b1, b0, st], _ =>
      simp [Int32Cell.afterFrames, Int32Cell.store, List.foldl_append,
        MCP342X.foldl_store_byte0]

/-! ## The claims -/

namespace MCP342X

variable {σ : Type}

/-- C1. 16-bit decode: under a configuration whose size field is not the 18-bit value, when
the first request for 3 bytes delivers exactly the bytes `hi`, `lo`, `st` and the ready bit
of `st` is clear, `getResult(int16_t*)` returns (with any fuel of at least one loop body)
the status `st`, and the sample holds the bytes `lo`, `hi`, whose value as an `int16_t` is
the two's complement reading of `hi * 256 + lo`: that number when `hi < 0x80` and that
number minus `65536` otherwise. -/
theorem getResult_int16_decodes (w : TwoWire σ) (dev : MCP342X) (bus : Bus σ)
    (data : Int16Cell) (fuel hi lo st : Nat)
    (hcfg : dev.configRegShdw &&& MCP342X_SIZE_MASK ≠ MCP342X_SIZE_18BIT)
    (hio : w.delivers dev.devAddr 3 bus.state [hi, lo, st])
    (hrdy : st &&& MCP342X_RDY = 0) :
    ∃ r, getResult_int16 w (fuel + 1) dev bus data = some r ∧ r.status = st ∧
      r.data = { byte0 := lo, byte1 := hi } ∧
      r.data.toInt = (hi : Int) * 256 + lo - (if hi < 128 then 0 else 65536) := by
  have hb := hio
  simp only [TwoWire.delivers, TwoWire.readsGive] at hb
  obtain ⟨-, -, hhi, -, hlo, -⟩ := hb
  refine ⟨{ status := st, data := { byte0 := lo, byte1 := hi }, dev := dev,
            bus := { state := w.afterPoll dev.devAddr 3 bus.state,
                     calls := bus.calls ++ pollCalls dev.devAddr 3 1 } }, ?_, rfl, rfl, ?_⟩
  · rw [getResult_int16, if_neg hcfg, getResult_int16_loop_frame w dev fuel bus data hi lo st hio]
    simp [hrdy, Run.result]
  · simp only [Int16Cell.toInt]
    split_ifs <;> omega

/-- Witness of C1: the frame `0x12 0x34` with status `0x00` gives status `0x00` and the
sample `0x1234`. -/
theorem getResult_int16_decodes_witness :
    ∃ r, getResult_int16 scripted 1 { devAddr := 0x68, configRegShdw := 0x08 }
        (scriptedBus [[0x12, 0x34, 0x00]] []) { byte0 := 0, byte1 := 0 } = some r ∧
      r.status = 0x00 ∧ r.data = { byte0 := 0x34, byte1 := 0x12 } ∧ r.data.toInt = 0x1234 := by
  simpa using getResult_int16_decodes scripted { devAddr := 0x68, configRegShdw := 0x08 }
    (scriptedBus [[0x12, 0x34, 0x00]] []) { byte0 := 0, byte1 := 0 } 0 0x12 0x34 0x00
    (by decide) (by simp [TwoWire.delivers, TwoWire.readsGive, scripted, scriptedBus])
    (by decide)

/-- C2. 18-bit decode: under a configuration whose size field is the 18-bit value, whatever
bytes the sample held before (its lowest byte, the only one the loop does not overwrite,
being a byte), when the first request for 4 bytes delivers exactly the bytes
`b2`, `b1`, `b0`, `st` and the ready bit of `st` is clear, `getResult(int32_t*)` returns
(with any fuel of at least one loop body) the status `st`, and the sample holds the 32-bit
sign extension of the 24-bit two's complement number `b2 * 65536 + b1 * 256 + b0`: that
number when `b2 < 0x80`, that number minus `2^24` otherwise. The bytes left in the sample
are those of this value, so nothing of the earlier content remains. -/
theorem getResult_int32_decodes (w : TwoWire σ) (dev : MCP342X) (bus : Bus σ)
    (data : Int32Cell) (fuel b2 b1 b0 st : Nat)
    (hdata : data.byte0 < 256)
    (hcfg : dev.configRegShdw &&& MCP342X_SIZE_MASK = MCP342X_SIZE_18BIT)
    (hio : w.delivers dev.devAddr 4 bus.state [b2, b1, b0, st])
    (hrdy : st &&& MCP342X_RDY = 0) :
    ∃ r, getResult_int32 w (fuel + 1) dev bus data = some r ∧ r.status = st ∧
      r.data.toInt =
        (b2 : Int) * 65536 + b1 * 256 + b0 - (if b2 < 128 then 0 else 16777216) ∧
      r.data = Int32Cell.ofInt
        ((b2 : Int) * 65536 + b1 * 256 + b0 - (if b2 < 128 then 0 else 16777216)) := by
  have hb := hio
  simp only [TwoWire.delivers, TwoWire.readsGive] at hb
  obtain ⟨-, -, h2, -, h1, -, h0, -⟩ := hb
  refine ⟨{ status := st,
            data := Int32Cell.shiftRight8
              { byte0 := data.byte0, byte1 := b0, byte2 := b1, byte3 := b2 },
            dev := dev,
            bus := { state := w.afterPoll dev.devAddr 4 bus.state,
                     calls := bus.calls ++ pollCalls dev.devAddr 4 1 } }, ?_, rfl, ?_, ?_⟩
  · rw [getResult_int32, if_neg (not_not.mpr hcfg),
      getResult_int32_loop_frame w dev fuel bus data b2 b1 b0 st hio]
    simp [hrdy, Run.result]
  · exact shiftRight8_toInt data.byte0 b0 b1 b2 hdata h0 h1 h2
  · exact shiftRight8_eq_ofInt data.byte0 b0 b1 b2 hdata h0 h1 h2

/-- Witness of C2: over a sample that held other bytes, the frame `0x01 0x23 0x45` gives
`0x012345` and the frame `0xFF 0xFF 0xFF` gives `-1`, both with status `0x00`. -/
theorem getResult_int32_decodes_witness :
    (∃ r, getResult_int32 scripted 1 { devAddr := 0x68, configRegShdw := 0x0C }
        (scriptedBus [[0x01, 0x23, 0x45, 0x00]] [])
        { byte0 := 0xAA, byte1 := 0xBB, byte2 := 0xCC, byte3 := 0xDD } = some r ∧
      r.status = 0x00 ∧ r.data.toInt = 0x012345 ∧
      r.data = { byte0 := 0x45, byte1 := 0x23, byte2 := 0x01, byte3 := 0x00 }) ∧
    (∃ r, getResult_int32 scripted 1 { devAddr := 0x68, configRegShdw := 0x0C }
        (scriptedBus [[0xFF, 0xFF, 0xFF, 0x00]] [])
        { byte0 := 0xAA, byte1 := 0xBB, byte2 := 0xCC, byte3 := 0xDD } = some r ∧
      r.status = 0x00 ∧ r.data.toInt = -1 ∧
      r.data = { byte0 := 0xFF, byte1 := 0xFF, byte2 := 0xFF, byte3 := 0xFF }) := by
  constructor
  · simpa [Int32Cell.ofInt] using
      getResult_int32_decodes scripted { devAddr := 0x68, configRegShdw := 0x0C }
        (scriptedBus [[0x01, 0x23, 0x45, 0x00]] [])
        { byte0 := 0xAA, byte1 := 0xBB, byte2 := 0xCC, byte3 := 0xDD } 0 0x01 0x23 0x45 0x00
        (by decide) (by decide)
        (by simp [TwoWire.delivers, TwoWire.readsGive, scripted, scriptedBus]) (by decide)
  · simpa [Int32Cell.ofInt] using
      getResult_int32_decodes scripted { devAddr := 0x68, configRegShdw := 0x0C }
        (scriptedBus [[0xFF, 0xFF, 0xFF, 0x00]] [])
        { byte0 := 0xAA, byte1 := 0xBB, byte2 := 0xCC, byte3 := 0xDD } 0 0xFF 0xFF 0xFF 0x00
        (by decide) (by decide)
        (by simp [TwoWire.delivers, TwoWire.readsGive, scripted, scriptedBus]) (by decide)

/-- C3. Under a configuration whose size field is not the 18-bit value, for every transport,
every transport state and call log, every sample and every fuel, `getResult(int32_t*)` and
`checkforResult(int32_t*)` return `0xFF` and leave the transport state, the call log (so no
call is issued), the sample and the object as they were. -/
theorem int32_reads_reject_other_sizes (w : TwoWire σ) (dev : MCP342X) (bus : Bus σ)
    (data : Int32Cell) (fuel : Nat)
    (hcfg : dev.configRegShdw &&& MCP342X_SIZE_MASK ≠ MCP342X_SIZE_18BIT) :
    getResult_int32 w fuel dev bus data =
        some { status := 0xFF, data := data, dev := dev, bus := bus } ∧
      checkforResult_int32 w dev bus data =
        { status := 0xFF, data := data, dev := dev, bus := bus } := by
  constructor
  · rw [getResult_int32, if_pos hcfg]
  · rw [checkforResult_int32, if_pos hcfg]

/-- Witness of C3: with the 16-bit configuration `0x08`, a transport holding a ready frame
is not touched. -/
theorem int32_reads_reject_other_sizes_witness :
    getResult_int32 scripted 0 { devAddr := 0x68, configRegShdw := 0x08 }
        (scriptedBus [[1, 2, 3, 0]] []) { byte0 := 9, byte1 := 8, byte2 := 7, byte3 := 6 } =
      some { status := 0xFF, data := { byte0 := 9, byte1 := 8, byte2 := 7, byte3 := 6 },
             dev := { devAddr := 0x68, configRegShdw := 0x08 },
             bus := scriptedBus [[1, 2, 3, 0]] [] } ∧
    checkforResult_int32 scripted { devAddr := 0x68, configRegShdw := 0x08 }
        (scriptedBus [[1, 2, 3, 0]] []) { byte0 := 9, byte1 := 8, byte2 := 7, byte3 := 6 } =
      { status := 0xFF, data := { byte0 := 9, byte1 := 8, byte2 := 7, byte3 := 6 },
        dev := { devAddr := 0x68, configRegShdw := 0x08 },
        bus := scriptedBus [[1, 2, 3, 0]] [] } :=
  int32_reads_reject_other_sizes scripted { devAddr := 0x68, configRegShdw := 0x08 }
    (scriptedBus [[1, 2, 3, 0]] []) { byte0 := 9, byte1 := 8, byte2 := 7, byte3 := 6 } 0
    (by decide)

/-- C4. Under a configuration whose size field is the 18-bit value, for every transport,
every transport state and call log, every sample and every fuel, `getResult(int16_t*)` and
`checkforResult(int16_t*)` return `0xFF` and leave the transport state, the call log (so no
call is issued), the sample and the object as they were. -/
theorem int16_reads_reject_18bit (w : TwoWire σ) (dev : MCP342X) (bus : Bus σ)
    (data : Int16Cell) (fuel : Nat)
    (hcfg : dev.configRegShdw &&& MCP342X_SIZE_MASK = MCP342X_SIZE_18BIT) :
    getResult_int16 w fuel dev bus data =
        some { status := 0xFF, data := data, dev := dev, bus := bus } ∧
      checkforResult_int16 w dev bus data =
        { status := 0xFF, data := data, dev := dev, bus := bus } := by
  constructor
  · rw [getResult_int16, if_pos hcfg]
  · rw [checkforResult_int16, if_pos hcfg]

/-- Witness of C4: with the 18-bit configuration `0x0C`, a transport holding a ready frame
is not touched. -/
theorem int16_reads_reject_18bit_witness :
    getResult_int16 scripted 0 { devAddr := 0x68, configRegShdw := 0x0C }
        (scriptedBus [[1, 2, 0]] []) { byte0 := 9, byte1 := 8 } =
      some { status := 0xFF, data := { byte0 := 9, byte1 := 8 },
             dev := { devAddr := 0x68, configRegShdw := 0x0C },
             bus := scriptedBus [[1, 2, 0]] [] } ∧
    checkforResult_int16 scripted { devAddr := 0x68, configRegShdw := 0x0C }
        (scriptedBus [[1, 2, 0]] []) { byte0 := 9, byte1 := 8 } =
      { status := 0xFF, data := { byte0 := 9, byte1 := 8 },
        dev := { devAddr := 0x68, configRegShdw := 0x0C },
        bus := scriptedBus [[1, 2, 0]] [] } :=
  int16_reads_reject_18bit scripted { devAddr := 0x68, configRegShdw := 0x0C }
    (scriptedBus [[1, 2, 0]] []) { byte0 := 9, byte1 := 8 } 0 (by decide)

/-- C5. Bounded polling: when the transport answers the first `N` polls with full-length
frames whose status byte has the ready bit set (`busy`, `N = busy.length`) and the next poll
with a full-length frame whose status byte has the ready bit clear, `getResult` returns
with any fuel above `N`; the calls it issued are exactly those of `N + 1` full polls, so
exactly `N + 1` `requestFrom` calls, and the status and the sample are those of the last
frame. Stated for the 16-bit variant under a configuration that is not 18-bit and for the
18-bit variant under the 18-bit configuration, each with a transport of its own. -/
theorem getResult_polls_until_ready {σ τ : Type} (w16 : TwoWire σ) (w32 : TwoWire τ)
    (dev16 dev32 : MCP342X) (bus16 : Bus σ) (bus32 : Bus τ) (data16 : Int16Cell)
    (data32 : Int32Cell) (busy16 busy32 : List (List Nat))
    (hi lo st16 b2 b1 b0 st32 fuel16 fuel32 : Nat)
    (hcfg16 : dev16.configRegShdw &&& MCP342X_SIZE_MASK ≠ MCP342X_SIZE_18BIT)
    (hcfg32 : dev32.configRegShdw &&& MCP342X_SIZE_MASK = MCP342X_SIZE_18BIT)
    (hio16 : w16.readyAfter dev16.devAddr 3 bus16.state busy16 [hi, lo, st16])
    (hio32 : w32.readyAfter dev32.devAddr 4 bus32.state busy32 [b2, b1, b0, st32])
    (hdata : data32.byte0 < 256)
    (hfuel16 : busy16.length < fuel16) (hfuel32 : busy32.length < fuel32) :
    (∃ r, getResult_int16 w16 fuel16 dev16 bus16 data16 = some r ∧
      r.bus.calls = bus16.calls ++ pollCalls dev16.devAddr 3 (busy16.length + 1) ∧
      requestCount r.bus.calls = requestCount bus16.calls + (busy16.length + 1) ∧
      r.bus.state = w16.afterPolls dev16.devAddr 3 (busy16.length + 1) bus16.state ∧
      r.status = st16 ∧ r.data = { byte0 := lo, byte1 := hi } ∧
      r.data.toInt = signed16 hi lo) ∧
    (∃ r, getResult_int32 w32 fuel32 dev32 bus32 data32 = some r ∧
      r.bus.calls = bus32.calls ++ pollCalls dev32.devAddr 4 (busy32.length + 1) ∧
      requestCount r.bus.calls = requestCount bus32.calls + (busy32.length + 1) ∧
      r.bus.state = w32.afterPolls dev32.devAddr 4 (busy32.length + 1) bus32.state ∧
      r.status = st32 ∧ r.data = Int32Cell.ofInt (signed24 b2 b1 b0) ∧
      r.data.toInt = signed24 b2 b1 b0) := by
  constructor
  · obtain ⟨hans, hbusy, hfin⟩ := hio16
    rw [TwoWire.answers_append] at hans
    obtain ⟨ha, hlast, -⟩ := hans
    have hb := hlast
    simp only [TwoWire.delivers, TwoWire.readsGive] at hb
    obtain ⟨-, -, hhi, -, hlo, -⟩ := hb
    obtain ⟨k, rfl⟩ := Nat.exists_eq_add_of_lt hfuel16
    have hst : st16 &&& MCP342X_RDY = 0 := by simpa [frameStatus] using hfin
    refine ⟨{ status := st16, data := { byte0 := lo, byte1 := hi }, dev := dev16,
              bus := { state := w16.afterPolls dev16.devAddr 3 (busy16.length + 1) bus16.state,
                       calls := bus16.calls ++ pollCalls dev16.devAddr 3 (busy16.length + 1) } },
      ?_, rfl, ?_, rfl, rfl, rfl, ?_⟩
    · rw [getResult_int16, if_neg hcfg16, Nat.add_assoc,
        getResult_int16_loop_busy w16 dev16 (k + 1) busy16 bus16 data16 hbusy ha,
        getResult_int16_loop_frame w16 dev16 k _ _ hi lo st16 hlast]
      simp only [hst, ne_eq, not_true_eq_false, if_false, List.append_assoc, ← pollCalls_add,
        TwoWire.afterPolls_succ, Run.result]
    · simp only [requestCount_append, requestCount_pollCalls]
    · simp only [Int16Cell.toInt, signed16]
      split_ifs <;> omega
  · obtain ⟨hans, hbusy, hfin⟩ := hio32
    rw [TwoWire.answers_append] at hans
    obtain ⟨ha, hlast, -⟩ := hans
    have hb := hlast
    simp only [TwoWire.delivers, TwoWire.readsGive] at hb
    obtain ⟨-, -, h2, -, h1, -, h0, -⟩ := hb
    obtain ⟨k, rfl⟩ := Nat.exists_eq_add_of_lt hfuel32
    have hst : st32 &&& MCP342X_RDY = 0 := by simpa [frameStatus] using hfin
    refine ⟨{ status := st32,
              data := Int32Cell.shiftRight8
                { byte0 := data32.byte0, byte1 := b0, byte2 := b1, byte3 := b2 },
              dev := dev32,
              bus := { state := w32.afterPolls dev32.devAddr 4 (busy32.length + 1) bus32.state,
                       calls := bus32.calls ++ pollCalls dev32.devAddr 4 (busy32.length + 1) } },
      ?_, rfl, ?_, rfl, rfl, ?_, ?_⟩
    · rw [getResult_int32, if_neg (not_not.mpr hcfg32), Nat.add_assoc,
        getResult_int32_loop_busy w32 dev32 (k + 1) busy32 bus32 data32 hbusy ha,
        getResult_int32_loop_frame w32 dev32 k _ _ b2 b1 b0 st32 hlast]
      simp only [hst, ne_eq, not_true_eq_false, if_false, List.append_assoc, ← pollCalls_add,
        TwoWire.afterPolls_succ, foldl_store_byte0, Run.result]
    · simp only [requestCount_append, requestCount_pollCalls]
    · exact shiftRight8_eq_ofInt data32.byte0 b0 b1 b2 hdata h0 h1 h2
    · exact shiftRight8_toInt data32.byte0 b0 b1 b2 hdata h0 h1 h2

/-- Witness of C5: two not-ready frames and then a ready one for the 16-bit variant (three
requests), one not-ready frame and then a ready one for the 18-bit variant (two requests);
the samples are those of the last frames, `0x1234` and `-2`. -/
theorem getResult_polls_until_ready_witness :
    (∃ r, getResult_int16 scripted 3 { devAddr := 0x68, configRegShdw := 0x08 }
        (scriptedBus [[0x01, 0x02, 0x80], [0x03, 0x04, 0x88], [0x12, 0x34, 0x08]] [])
        { byte0 := 0, byte1 := 0 } = some r ∧
      requestCount r.bus.calls = 3 ∧ r.status = 0x08 ∧ r.data.toInt = 0x1234) ∧
    (∃ r, getResult_int32 scripted 2 { devAddr := 0x68, configRegShdw := 0x0C }
        (scriptedBus [[0x01, 0x02, 0x03, 0x8C], [0xFF, 0xFF, 0xFE, 0x0C]] [])
        { byte0 := 0xAA, byte1 := 0xBB, byte2 := 0xCC, byte3 := 0xDD } = some r ∧
      requestCount r.bus.calls = 2 ∧ r.status = 0x0C ∧ r.data.toInt = -2) := by
  have h := getResult_polls_until_ready scripted scripted
    { devAddr := 0x68, configRegShdw := 0x08 } { devAddr := 0x68, configRegShdw := 0x0C }
    (scriptedBus [[0x01, 0x02, 0x80], [0x03, 0x04, 0x88], [0x12, 0x34, 0x08]] [])
    (scriptedBus [[0x01, 0x02, 0x03, 0x8C], [0xFF, 0xFF, 0xFE, 0x0C]] [])
    { byte0 := 0, byte1 := 0 } { byte0 := 0xAA, byte1 := 0xBB, byte2 := 0xCC, byte3 := 0xDD }
    [[0x01, 0x02, 0x80], [0x03, 0x04, 0x88]] [[0x01, 0x02, 0x03, 0x8C]]
    0x12 0x34 0x08 0xFF 0xFF 0xFE 0x0C 3 2 (by decide) (by decide)
    (by simp [TwoWire.readyAfter, TwoWire.answers, TwoWire.delivers, TwoWire.readsGive,
          TwoWire.afterPoll, TwoWire.afterReads, scripted, scriptedBus, frameStatus,
          MCP342X_RDY]; decide)
    (by simp [TwoWire.readyAfter, TwoWire.answers, TwoWire.delivers, TwoWire.readsGive,
          TwoWire.afterPoll, TwoWire.afterReads, scripted, scriptedBus, frameStatus,
          MCP342X_RDY]; decide)
    (by decide) (by decide) (by decide)
  obtain ⟨⟨r, hr, -, hc, -, hs, -, hv⟩, ⟨r', hr', -, hc', -, hs', -, hv'⟩⟩ := h
  exact ⟨⟨r, hr, by simpa [scriptedBus, requestCount] using hc, hs,
      by simpa [signed16] using hv⟩,
    ⟨r', hr', by simpa [scriptedBus, requestCount] using hc', hs',
      by simpa [signed24] using hv'⟩⟩

/-- C6. Single attempt: under a configuration that matches the width, for every transport,
`checkforResult` issues one `requestFrom` (followed by exactly the three resp. four reads
when the full count was delivered, and by nothing otherwise) and returns. When the request
delivers the full count with the bytes `hi lo st` (resp. `b2 b1 b0 st`) it returns `st`
itself, whether its ready bit is set or not, and the sample is decoded as by `getResult`:
the bytes `lo`, `hi` of the 16-bit two's complement number, resp. the sign-extended 24-bit
number of the three data bytes. -/
theorem checkforResult_single_attempt {σ τ : Type} (w16 : TwoWire σ) (w32 : TwoWire τ)
    (dev16 dev32 : MCP342X) (bus16 : Bus σ) (bus32 : Bus τ) (data16 : Int16Cell)
    (data32 : Int32Cell)
    (hcfg16 : dev16.configRegShdw &&& MCP342X_SIZE_MASK ≠ MCP342X_SIZE_18BIT)
    (hcfg32 : dev32.configRegShdw &&& MCP342X_SIZE_MASK = MCP342X_SIZE_18BIT) :
    ((checkforResult_int16 w16 dev16 bus16 data16).bus.calls =
        bus16.calls ++ WireCall.requestFrom dev16.devAddr 3 ::
          List.replicate (if (w16.requestFrom bus16.state dev16.devAddr 3).1 = 3 then 3 else 0)
            WireCall.read ∧
      requestCount (checkforResult_int16 w16 dev16 bus16 data16).bus.calls =
        requestCount bus16.calls + 1 ∧
      ∀ hi lo st : Nat, w16.delivers dev16.devAddr 3 bus16.state [hi, lo, st] →
        (checkforResult_int16 w16 dev16 bus16 data16).status = st ∧
        (checkforResult_int16 w16 dev16 bus16 data16).data = { byte0 := lo, byte1 := hi } ∧
        (checkforResult_int16 w16 dev16 bus16 data16).data.toInt = signed16 hi lo) ∧
    ((checkforResult_int32 w32 dev32 bus32 data32).bus.calls =
        bus32.calls ++ WireCall.requestFrom dev32.devAddr 4 ::
          List.replicate (if (w32.requestFrom bus32.state dev32.devAddr 4).1 = 4 then 4 else 0)
            WireCall.read ∧
      requestCount (checkforResult_int32 w32 dev32 bus32 data32).bus.calls =
        requestCount bus32.calls + 1 ∧
      ∀ b2 b1 b0 st : Nat, data32.byte0 < 256 →
        w32.delivers dev32.devAddr 4 bus32.state [b2, b1, b0, st] →
        (checkforResult_int32 w32 dev32 bus32 data32).status = st ∧
        (checkforResult_int32 w32 dev32 bus32 data32).data =
          Int32Cell.ofInt (signed24 b2 b1 b0) ∧
        (checkforResult_int32 w32 dev32 bus32 data32).data.toInt = signed24 b2 b1 b0) := by
  have hc16 : (checkforResult_int16 w16 dev16 bus16 data16).bus.calls =
      bus16.calls ++ WireCall.requestFrom dev16.devAddr 3 ::
        List.replicate (if (w16.requestFrom bus16.state dev16.devAddr 3).1 = 3 then 3 else 0)
          WireCall.read := by
    by_cases h : (w16.requestFrom bus16.state dev16.devAddr 3).1 = 3 <;>
      simp [checkforResult_int16, hcfg16, Bus.requestFrom, Bus.read, h, List.replicate]
  have hc32 : (checkforResult_int32 w32 dev32 bus32 data32).bus.calls =
      bus32.calls ++ WireCall.requestFrom dev32.devAddr 4 ::
        List.replicate (if (w32.requestFrom bus32.state dev32.devAddr 4).1 = 4 then 4 else 0)
          WireCall.read := by
    by_cases h : (w32.requestFrom bus32.state dev32.devAddr 4).1 = 4 <;>
      simp [checkforResult_int32, hcfg32, Bus.requestFrom, Bus.read, h, List.replicate]
  have hone : ∀ (a q k : Nat),
      requestCount (WireCall.requestFrom a q :: List.replicate k WireCall.read) = 1 := by
    intro a q k
    have h : WireCall.requestFrom a q :: List.replicate k WireCall.read =
        [WireCall.requestFrom a q] ++ List.replicate k WireCall.read := rfl
    rw [h, requestCount_append, requestCount_replicate_read]
    rfl
  refine ⟨⟨hc16, ?_, ?_⟩, ⟨hc32, ?_, ?_⟩⟩
  · rw [hc16, requestCount_append, hone]
  · intro hi lo st hio
    have hb := hio
    simp only [TwoWire.delivers, TwoWire.readsGive] at hb
    obtain ⟨-, -, hhi, -, hlo, -⟩ := hb
    rw [checkforResult_int16_frame w16 dev16 bus16 data16 hi lo st hcfg16 hio]
    refine ⟨rfl, rfl, ?_⟩
    simp only [Int16Cell.toInt, signed16]
    split_ifs <;> omega
  · rw [hc32, requestCount_append, hone]
  · intro b2 b1 b0 st hdata hio
    have hb := hio
    simp only [TwoWire.delivers, TwoWire.readsGive] at hb
    obtain ⟨-, -, h2, -, h1, -, h0, -⟩ := hb
    rw [checkforResult_int32_frame w32 dev32 bus32 data32 b2 b1 b0 st hcfg32 hio]
    exact ⟨rfl, shiftRight8_eq_ofInt data32.byte0 b0 b1 b2 hdata h0 h1 h2,
      shiftRight8_toInt data32.byte0 b0 b1 b2 hdata h0 h1 h2⟩

/-- Witness of C6: frames whose status says not ready (`0x88`, `0x8C`) are returned with that
status and decoded all the same: `0x8001` read as 16 bits is `-32767`, and the data bytes
`0x80 0x00 0x01` give `-8388607`. -/
theorem checkforResult_single_attempt_witness :
    (requestCount (checkforResult_int16 scripted { devAddr := 0x68, configRegShdw := 0x08 }
        (scriptedBus [[0x80, 0x01, 0x88]] []) { byte0 := 0, byte1 := 0 }).bus.calls = 1 ∧
      (checkforResult_int16 scripted { devAddr := 0x68, configRegShdw := 0x08 }
        (scriptedBus [[0x80, 0x01, 0x88]] []) { byte0 := 0, byte1 := 0 }).status = 0x88 ∧
      (checkforResult_int16 scripted { devAddr := 0x68, configRegShdw := 0x08 }
        (scriptedBus [[0x80, 0x01, 0x88]] []) { byte0 := 0, byte1 := 0 }).data.toInt =
          -32767) ∧
    (requestCount (checkforResult_int32 scripted { devAddr := 0x68, configRegShdw := 0x0C }
        (scriptedBus [[0x80, 0x00, 0x01, 0x8C]] [])
        { byte0 := 0xAA, byte1 := 0xBB, byte2 := 0xCC, byte3 := 0xDD }).bus.calls = 1 ∧
      (checkforResult_int32 scripted { devAddr := 0x68, configRegShdw := 0x0C }
        (scriptedBus [[0x80, 0x00, 0x01, 0x8C]] [])
        { byte0 := 0xAA, byte1 := 0xBB, byte2 := 0xCC, byte3 := 0xDD }).status = 0x8C ∧
      (checkforResult_int32 scripted { devAddr := 0x68, configRegShdw := 0x0C }
        (scriptedBus [[0x80, 0x00, 0x01, 0x8C]] [])
        { byte0 := 0xAA, byte1 := 0xBB, byte2 := 0xCC, byte3 := 0xDD }).data.toInt =
          -8388607) := by
  have h := checkforResult_single_attempt scripted scripted
    { devAddr := 0x68, configRegShdw := 0x08 } { devAddr := 0x68, configRegShdw := 0x0C }
    (scriptedBus [[0x80, 0x01, 0x88]] []) (scriptedBus [[0x80, 0x00, 0x01, 0x8C]] [])
    { byte0 := 0, byte1 := 0 } { byte0 := 0xAA, byte1 := 0xBB, byte2 := 0xCC, byte3 := 0xDD }
    (by decide) (by decide)
  obtain ⟨⟨-, hc, hd⟩, ⟨-, hc', hd'⟩⟩ := h
  have h16 := hd 0x80 0x01 0x88
    (by simp [TwoWire.delivers, TwoWire.readsGive, scripted, scriptedBus])
  have h32 := hd' 0x80 0x00 0x01 0x8C (by decide)
    (by simp [TwoWire.delivers, TwoWire.readsGive, scripted, scriptedBus])
  exact ⟨⟨by simpa [scriptedBus, requestCount] using hc, h16.1,
      by simpa [signed16] using h16.2.2⟩,
    ⟨by simpa [scriptedBus, requestCount] using hc', h32.1,
      by simpa [signed24] using h32.2.2⟩⟩

/-- C7. Partial read: under a configuration that matches the width, when a `requestFrom`
reports fewer bytes than the 3 resp. 4 requested, the read operation returns `0xFF` with
that request as its last transport call: no `read` follows and no further request is
issued, and the transport is left in the state right after the request. For `getResult`
the short delivery may come after any number of full-length polls whose status said not
ready (`busy`), with any fuel above their number; for `checkforResult` it is the one
request it issues, from whatever call log and sample it starts with. -/
theorem partial_read_aborts {σ τ : Type} (w16 : TwoWire σ) (w32 : TwoWire τ)
    (dev16 dev32 : MCP342X) (bus16 : Bus σ) (bus32 : Bus τ) (data16 : Int16Cell)
    (data32 : Int32Cell) (busy16 busy32 : List (List Nat)) (fuel16 fuel32 : Nat)
    (hcfg16 : dev16.configRegShdw &&& MCP342X_SIZE_MASK ≠ MCP342X_SIZE_18BIT)
    (hcfg32 : dev32.configRegShdw &&& MCP342X_SIZE_MASK = MCP342X_SIZE_18BIT)
    (hbusy16 : w16.answers dev16.devAddr 3 bus16.state busy16)
    (hnr16 : ∀ f ∈ busy16, frameStatus f &&& MCP342X_RDY ≠ 0)
    (hshort16 : (w16.requestFrom (w16.afterPolls dev16.devAddr 3 busy16.length bus16.state)
      dev16.devAddr 3).1 < 3)
    (hbusy32 : w32.answers dev32.devAddr 4 bus32.state busy32)
    (hnr32 : ∀ f ∈ busy32, frameStatus f &&& MCP342X_RDY ≠ 0)
    (hshort32 : (w32.requestFrom (w32.afterPolls dev32.devAddr 4 busy32.length bus32.state)
      dev32.devAddr 4).1 < 4)
    (hfuel16 : busy16.length < fuel16) (hfuel32 : busy32.length < fuel32) :
    (getResult_int16 w16 fuel16 dev16 bus16 data16 =
        some { status := 0xFF, data := busy16.foldl Int16Cell.store data16, dev := dev16,
               bus := { state := (w16.requestFrom
                          (w16.afterPolls dev16.devAddr 3 busy16.length bus16.state)
                          dev16.devAddr 3).2,
                        calls := bus16.calls ++ pollCalls dev16.devAddr 3 busy16.length ++
                          [WireCall.requestFrom dev16.devAddr 3] } } ∧
      ∀ (calls : List WireCall) (data : Int16Cell),
        checkforResult_int16 w16 dev16
            { state := w16.afterPolls dev16.devAddr 3 busy16.length bus16.state,
              calls := calls } data =
          { status := 0xFF, data := data, dev := dev16,
            bus := { state := (w16.requestFrom
                       (w16.afterPolls dev16.devAddr 3 busy16.length bus16.state)
                       dev16.devAddr 3).2,
                     calls := calls ++ [WireCall.requestFrom dev16.devAddr 3] } }) ∧
    (getResult_int32 w32 fuel32 dev32 bus32 data32 =
        some { status := 0xFF, data := busy32.foldl Int32Cell.store data32, dev := dev32,
               bus := { state := (w32.requestFrom
                          (w32.afterPolls dev32.devAddr 4 busy32.length bus32.state)
                          dev32.devAddr 4).2,
                        calls := bus32.calls ++ pollCalls dev32.devAddr 4 busy32.length ++
                          [WireCall.requestFrom dev32.devAddr 4] } } ∧
      ∀ (calls : List WireCall) (data : Int32Cell),
        checkforResult_int32 w32 dev32
            { state := w32.afterPolls dev32.devAddr 4 busy32.length bus32.state,
              calls := calls } data =
          { status := 0xFF, data := data, dev := dev32,
            bus := { state := (w32.requestFrom
                       (w32.afterPolls dev32.devAddr 4 busy32.length bus32.state)
                       dev32.devAddr 4).2,
                     calls := calls ++ [WireCall.requestFrom dev32.devAddr 4] } }) := by
  obtain ⟨k16, rfl⟩ := Nat.exists_eq_add_of_lt hfuel16
  obtain ⟨k32, rfl⟩ := Nat.exists_eq_add_of_lt hfuel32
  refine ⟨⟨?_, ?_⟩, ⟨?_, ?_⟩⟩
  · rw [getResult_int16, if_neg hcfg16, Nat.add_assoc,
      getResult_int16_loop_busy w16 dev16 (k16 + 1) busy16 bus16 data16 hnr16 hbusy16,
      getResult_int16_loop_short w16 dev16 k16 _ _ (Nat.ne_of_lt hshort16)]
    rfl
  · intro calls data
    simp only [checkforResult_int16, if_neg hcfg16, Bus.requestFrom,
      if_neg (Nat.ne_of_lt hshort16)]
  · rw [getResult_int32, if_neg (not_not.mpr hcfg32), Nat.add_assoc,
      getResult_int32_loop_busy w32 dev32 (k32 + 1) busy32 bus32 data32 hnr32 hbusy32,
      getResult_int32_loop_short w32 dev32 k32 _ _ (Nat.ne_of_lt hshort32)]
    rfl
  · intro calls data
    simp only [checkforResult_int32, if_neg (not_not.mpr hcfg32), Bus.requestFrom,
      if_neg (Nat.ne_of_lt hshort32)]

/-- Witness of C7: a not-ready frame followed by a frame that is one byte short. The blocking
reads return `0xFF` after two requests, the second of which is their last call; the single
attempts, started where the short frame is next, return `0xFF` after their one request. -/
theorem partial_read_aborts_witness :
    ((∃ r, getResult_int16 scripted 5 { devAddr := 0x68, configRegShdw := 0x08 }
          (scriptedBus [[0x01, 0x02, 0x88], [0x03, 0x04]] []) { byte0 := 0, byte1 := 0 } =
          some r ∧ r.status = 0xFF ∧
        r.bus.calls = [WireCall.requestFrom 0x68 3, WireCall.read, WireCall.read,
          WireCall.read, WireCall.requestFrom 0x68 3]) ∧
      (checkforResult_int16 scripted { devAddr := 0x68, configRegShdw := 0x08 }
          { state := { frames := [[0x03, 0x04]], rx := [], codes := [] }, calls := [] }
          { byte0 := 0, byte1 := 0 }).status = 0xFF ∧
      (checkforResult_int16 scripted { devAddr := 0x68, configRegShdw := 0x08 }
          { state := { frames := [[0x03, 0x04]], rx := [], codes := [] }, calls := [] }
          { byte0 := 0, byte1 := 0 }).bus.calls = [WireCall.requestFrom 0x68 3]) ∧
    ((∃ r, getResult_int32 scripted 5 { devAddr := 0x68, configRegShdw := 0x0C }
          (scriptedBus [[0x01, 0x02, 0x03, 0x8C], [0x04, 0x05, 0x06]] [])
          { byte0 := 0, byte1 := 0, byte2 := 0, byte3 := 0 } = some r ∧ r.status = 0xFF ∧
        r.bus.calls = [WireCall.requestFrom 0x68 4, WireCall.read, WireCall.read,
          WireCall.read, WireCall.read, WireCall.requestFrom 0x68 4]) ∧
      (checkforResult_int32 scripted { devAddr := 0x68, configRegShdw := 0x0C }
          { state := { frames := [[0x04, 0x05, 0x06]], rx := [], codes := [] }, calls := [] }
          { byte0 := 0, byte1 := 0, byte2 := 0, byte3 := 0 }).status = 0xFF ∧
      (checkforResult_int32 scripted { devAddr := 0x68, configRegShdw := 0x0C }
          { state := { frames := [[0x04, 0x05, 0x06]], rx := [], codes := [] }, calls := [] }
          { byte0 := 0, byte1 := 0, byte2 := 0, byte3 := 0 }).bus.calls =
        [WireCall.requestFrom 0x68 4]) := by
  have h := partial_read_aborts scripted scripted
    { devAddr := 0x68, configRegShdw := 0x08 } { devAddr := 0x68, configRegShdw := 0x0C }
    (scriptedBus [[0x01, 0x02, 0x88], [0x03, 0x04]] [])
    (scriptedBus [[0x01, 0x02, 0x03, 0x8C], [0x04, 0x05, 0x06]] [])
    { byte0 := 0, byte1 := 0 } { byte0 := 0, byte1 := 0, byte2 := 0, byte3 := 0 }
    [[0x01, 0x02, 0x88]] [[0x01, 0x02, 0x03, 0x8C]] 5 5 (by decide) (by decide)
    (by simp [TwoWire.answers, TwoWire.delivers, TwoWire.readsGive, scripted, scriptedBus])
    (by simp [frameStatus, MCP342X_RDY])
    (by simp [TwoWire.afterPolls, TwoWire.afterPoll, TwoWire.afterReads, scripted, scriptedBus])
    (by simp [TwoWire.answers, TwoWire.delivers, TwoWire.readsGive, scripted, scriptedBus])
    (by simp [frameStatus, MCP342X_RDY])
    (by simp [TwoWire.afterPolls, TwoWire.afterPoll, TwoWire.afterReads, scripted, scriptedBus])
    (by decide) (by decide)
  obtain ⟨⟨hg, hc⟩, ⟨hg', hc'⟩⟩ := h
  have e16 := hc [] { byte0 := 0, byte1 := 0 }
  have e32 := hc' [] { byte0 := 0, byte1 := 0, byte2 := 0, byte3 := 0 }
  simp only [TwoWire.afterPolls, TwoWire.afterPoll, TwoWire.afterReads, scripted, scriptedBus,
    List.length_cons, List.length_nil] at e16 e32
  refine ⟨⟨⟨_, hg, rfl, ?_⟩, ?_, ?_⟩, ⟨⟨_, hg', rfl, ?_⟩, ?_, ?_⟩⟩
  · simp [scriptedBus, pollCalls]
  · exact congrArg ReadRet.status e16
  · exact congrArg (fun r => r.bus.calls) e16
  · simp [scriptedBus, pollCalls]
  · exact congrArg ReadRet.status e32
  · exact congrArg (fun r => r.bus.calls) e32

/-- C8. For every cached configuration byte `c`, every channel argument and every transport,
the cached byte `c'` after `startConversion(channel)` agrees with `c` outside the channel
field: `c' & ~MCP342X_CHANNEL_MASK = c & ~MCP342X_CHANNEL_MASK` (evaluated in `int`, as in
C), every bit that is not in the mask is the same in `c'` and `c`, and in particular the
size field is the same. -/
theorem startConversion_channel_keeps_other_fields (w : TwoWire σ) (dev : MCP342X)
    (bus : Bus σ) (channel : Nat) (hc : dev.configRegShdw < 256) :
    Int.land ((startConversion_channel w dev bus channel).dev.configRegShdw : Int)
        (~~~(MCP342X_CHANNEL_MASK : Int)) =
      Int.land (dev.configRegShdw : Int) (~~~(MCP342X_CHANNEL_MASK : Int)) ∧
    (∀ i : Nat, MCP342X_CHANNEL_MASK.testBit i = false →
      (startConversion_channel w dev bus channel).dev.configRegShdw.testBit i =
        dev.configRegShdw.testBit i) ∧
    (startConversion_channel w dev bus channel).dev.configRegShdw &&& MCP342X_SIZE_MASK =
      dev.configRegShdw &&& MCP342X_SIZE_MASK := by
  have hnew : (startConversion_channel w dev bus channel).dev.configRegShdw =
      Nat.ldiff dev.configRegShdw MCP342X_CHANNEL_MASK |||
        (channel &&& MCP342X_CHANNEL_MASK) := substituteChannel_eq channel hc
  have hbit : ∀ i : Nat, MCP342X_CHANNEL_MASK.testBit i = false →
      (startConversion_channel w dev bus channel).dev.configRegShdw.testBit i =
        dev.configRegShdw.testBit i := by
    intro i hi
    rw [hnew, Nat.testBit_or, Nat.testBit_ldiff, Nat.testBit_and, hi]
    simp
  refine ⟨?_, hbit, ?_⟩
  · show ((Nat.ldiff (startConversion_channel w dev bus channel).dev.configRegShdw
        MCP342X_CHANNEL_MASK : Nat) : Int) =
      ((Nat.ldiff dev.configRegShdw MCP342X_CHANNEL_MASK : Nat) : Int)
    congr 1
    apply Nat.eq_of_testBit_eq
    intro i
    rw [Nat.testBit_ldiff, Nat.testBit_ldiff]
    cases hm : MCP342X_CHANNEL_MASK.testBit i
    · rw [hbit i hm]
    · simp
  · apply Nat.eq_of_testBit_eq
    intro i
    rw [Nat.testBit_and, Nat.testBit_and]
    cases hm : MCP342X_CHANNEL_MASK.testBit i
    · rw [hbit i hm]
    · have hs : MCP342X_SIZE_MASK.testBit i = false := by
        by_cases hi : i < 8
        · interval_cases i <;> first | rfl | exact absurd hm (by decide)
        · exact Nat.testBit_lt_two_pow
            (lt_of_lt_of_le (show MCP342X_SIZE_MASK < 2 ^ 8 by decide)
              (Nat.pow_le_pow_right (by decide) (by omega)))
      rw [hs]
      simp

/-- Witness of C8: the byte `0x7B` is configured, `startConversion(2)` is called, and the
byte read back with `getConfigRegShdw` agrees with `0x7B` once the channel bits are masked
out. -/
theorem startConversion_channel_keeps_other_fields_witness :
    Int.land ((getConfigRegShdw (startConversion_channel scripted
        (configure { devAddr := 0x68, configRegShdw := 0 } 0x7B) (scriptedBus [] [0]) 2).dev :
          Nat) : Int) (~~~(MCP342X_CHANNEL_MASK : Int)) =
      Int.land ((0x7B : Nat) : Int) (~~~(MCP342X_CHANNEL_MASK : Int)) ∧
    (startConversion_channel scripted
        (configure { devAddr := 0x68, configRegShdw := 0 } 0x7B)
        (scriptedBus [] [0]) 2).dev.configRegShdw &&& MCP342X_SIZE_MASK = 0x08 :=
  ⟨(startConversion_channel_keeps_other_fields scripted
      (configure { devAddr := 0x68, configRegShdw := 0 } 0x7B) (scriptedBus [] [0]) 2
      (by decide)).1,
   (startConversion_channel_keeps_other_fields scripted
      (configure { devAddr := 0x68, configRegShdw := 0 } 0x7B) (scriptedBus [] [0]) 2
      (by decide)).2.2⟩

/-- C9. For every cached configuration byte `c` and every transport, `startConversion()`
issues exactly the calls `beginTransmission(devAddr)`, `write(c | MCP342X_RDY)`,
`endTransmission()`, in this order; it returns true if and only if that `endTransmission`
returned `0`; and it leaves the object, so the cached configuration `c`, as it was. -/
theorem startConversion_writes_config (w : TwoWire σ) (dev : MCP342X) (bus : Bus σ)
    (hc : dev.configRegShdw < 256) :
    (startConversion w dev bus).bus.calls =
        bus.calls ++ [WireCall.beginTransmission dev.devAddr,
          WireCall.write (dev.configRegShdw ||| MCP342X_RDY), WireCall.endTransmission] ∧
    ((startConversion w dev bus).value = true ↔
      (w.endTransmission (w.write (w.beginTransmission bus.state dev.devAddr)
        (dev.configRegShdw ||| MCP342X_RDY))).1 = 0) ∧
    (startConversion w dev bus).bus.state =
      (w.endTransmission (w.write (w.beginTransmission bus.state dev.devAddr)
        (dev.configRegShdw ||| MCP342X_RDY))).2 ∧
    (startConversion w dev bus).dev = dev ∧
    (startConversion w dev bus).dev.configRegShdw = dev.configRegShdw := by
  simp [startConversion, Bus.beginTransmission, Bus.write, Bus.endTransmission,
    toUInt8_lor_rdy hc]

/-- Witness of C9: with the configuration `0x18`, the byte written is `0x98`; the call returns
true on a transport that reports `0` and false on one that reports `2`, and the cached byte
is `0x18` afterwards in both cases. -/
theorem startConversion_writes_config_witness :
    ((startConversion scripted { devAddr := 0x68, configRegShdw := 0x18 }
        (scriptedBus [] [0])).bus.calls =
        [WireCall.beginTransmission 0x68, WireCall.write 0x98, WireCall.endTransmission] ∧
      (startConversion scripted { devAddr := 0x68, configRegShdw := 0x18 }
        (scriptedBus [] [0])).value = true ∧
      (startConversion scripted { devAddr := 0x68, configRegShdw := 0x18 }
        (scriptedBus [] [0])).dev.configRegShdw = 0x18) ∧
    ((startConversion scripted { devAddr := 0x68, configRegShdw := 0x18 }
        (scriptedBus [] [2])).value = false ∧
      (startConversion scripted { devAddr := 0x68, configRegShdw := 0x18 }
        (scriptedBus [] [2])).dev.configRegShdw = 0x18) := by
  have h0 := startConversion_writes_config scripted
    { devAddr := 0x68, configRegShdw := 0x18 } (scriptedBus [] [0]) (by decide)
  have h2 := startConversion_writes_config scripted
    { devAddr := 0x68, configRegShdw := 0x18 } (scriptedBus [] [2]) (by decide)
  obtain ⟨hcalls, hval, -, -, hcfg⟩ := h0
  obtain ⟨-, hval2, -, -, hcfg2⟩ := h2
  refine ⟨⟨?_, ?_, hcfg⟩, ⟨?_, hcfg2⟩⟩
  · rw [hcalls]; rfl
  · exact hval.mpr rfl
  · cases hv : (startConversion scripted { devAddr := 0x68, configRegShdw := 0x18 }
        (scriptedBus [] [2])).value
    · rfl
    · exact absurd (hval2.mp hv) (by decide)

/-- C10. For every cached configuration byte `c`, every channel argument and every transport,
`startConversion(channel)` stores `(c & ~MCP342X_CHANNEL_MASK) | (channel &
MCP342X_CHANNEL_MASK)` as the new cached byte (the C expression evaluated in `int`; as
bytes, `c & 0x9F | channel & 0x60`), and issues exactly the calls
`beginTransmission(devAddr)`, `write(c' | MCP342X_RDY)` with the new cached byte `c'`,
`endTransmission()`. It returns what the transport reports whatever the argument, and two
arguments that agree under the mask give the same result altogether: return value, cached
byte and transport, with the same byte written. -/
theorem startConversion_channel_substitutes (w : TwoWire σ) (dev : MCP342X) (bus : Bus σ)
    (channel : Nat) (hc : dev.configRegShdw < 256) :
    (((startConversion_channel w dev bus channel).dev.configRegShdw : Nat) : Int) =
        Int.lor (Int.land dev.configRegShdw (~~~(MCP342X_CHANNEL_MASK : Int)))
          (Int.land channel MCP342X_CHANNEL_MASK) ∧
    (startConversion_channel w dev bus channel).dev.configRegShdw =
      (dev.configRegShdw &&& (0xFF ^^^ MCP342X_CHANNEL_MASK)) |||
        (channel &&& MCP342X_CHANNEL_MASK) ∧
    (startConversion_channel w dev bus channel).dev.devAddr = dev.devAddr ∧
    (startConversion_channel w dev bus channel).bus.calls =
      bus.calls ++ [WireCall.beginTransmission dev.devAddr,
        WireCall.write
          ((startConversion_channel w dev bus channel).dev.configRegShdw ||| MCP342X_RDY),
        WireCall.endTransmission] ∧
    ((startConversion_channel w dev bus channel).value = true ↔
      (w.endTransmission (w.write (w.beginTransmission bus.state dev.devAddr)
        ((startConversion_channel w dev bus channel).dev.configRegShdw |||
          MCP342X_RDY))).1 = 0) ∧
    (∀ other : Nat, other &&& MCP342X_CHANNEL_MASK = channel &&& MCP342X_CHANNEL_MASK →
      startConversion_channel w dev bus other = startConversion_channel w dev bus channel) := by
  have hnew : (startConversion_channel w dev bus channel).dev.configRegShdw =
      substituteChannel dev.configRegShdw channel := rfl
  have hlt : substituteChannel dev.configRegShdw channel < 256 := substituteChannel_lt _ _
  refine ⟨?_, ?_, rfl, ?_, ?_, ?_⟩
  · rw [hnew, substituteChannel_eq channel hc, substituteChannel_int]
  · rw [hnew, substituteChannel_eq channel hc, ldiff_channel_mask hc]
  · rw [hnew]
    simp [startConversion_channel, Bus.beginTransmission, Bus.write, Bus.endTransmission,
      toUInt8_lor_rdy hlt]
  · rw [hnew]
    simp [startConversion_channel, Bus.beginTransmission, Bus.write, Bus.endTransmission,
      toUInt8_lor_rdy hlt]
  · intro other hother
    have hsub : substituteChannel dev.configRegShdw other =
        substituteChannel dev.configRegShdw channel := by
      have ho : Int.land (other : Int) (MCP342X_CHANNEL_MASK : Int) =
          ((other &&& MCP342X_CHANNEL_MASK : Nat) : Int) := rfl
      have hch : Int.land (channel : Int) (MCP342X_CHANNEL_MASK : Int) =
          ((channel &&& MCP342X_CHANNEL_MASK : Nat) : Int) := rfl
      rw [substituteChannel, substituteChannel, ho, hch, hother]
    simp only [startConversion_channel, hsub]

/-- Witness of C10: with the cached byte `0x1B`, `startConversion(0x40)` stores `0x5B` and
writes `0xDB`; the argument `0xC7`, which agrees with `0x40` under the mask, does the same. -/
theorem startConversion_channel_substitutes_witness :
    (startConversion_channel scripted { devAddr := 0x68, configRegShdw := 0x1B }
        (scriptedBus [] [0]) 0x40).dev.configRegShdw = 0x5B ∧
    (startConversion_channel scripted { devAddr := 0x68, configRegShdw := 0x1B }
        (scriptedBus [] [0]) 0x40).bus.calls =
      [WireCall.beginTransmission 0x68, WireCall.write 0xDB, WireCall.endTransmission] ∧
    startConversion_channel scripted { devAddr := 0x68, configRegShdw := 0x1B }
        (scriptedBus [] [0]) 0xC7 =
      startConversion_channel scripted { devAddr := 0x68, configRegShdw := 0x1B }
        (scriptedBus [] [0]) 0x40 := by
  have h := startConversion_channel_substitutes scripted
    { devAddr := 0x68, configRegShdw := 0x1B } (scriptedBus [] [0]) 0x40 (by decide)
  obtain ⟨-, hnew, -, hcalls, -, hsame⟩ := h
  have hv : (startConversion_channel scripted { devAddr := 0x68, configRegShdw := 0x1B }
      (scriptedBus [] [0]) 0x40).dev.configRegShdw = 0x5B := by
    rw [hnew]; decide
  refine ⟨hv, ?_, hsame 0xC7 (by decide)⟩
  rw [hcalls, hv]; rfl

/-- C11. For every object and every transport, `testConnection` issues exactly the calls
`beginTransmission(devAddr)` and `endTransmission()`, with no `write` between them; it
returns true if and only if that `endTransmission` returned `0`; and it leaves the object,
so the cached configuration, as it was. -/
theorem testConnection_reflects_transport (w : TwoWire σ) (dev : MCP342X) (bus : Bus σ) :
    (testConnection w dev bus).bus.calls =
        bus.calls ++ [WireCall.beginTransmission dev.devAddr, WireCall.endTransmission] ∧
    ((testConnection w dev bus).value = true ↔
      (w.endTransmission (w.beginTransmission bus.state dev.devAddr)).1 = 0) ∧
    (testConnection w dev bus).bus.state =
      (w.endTransmission (w.beginTransmission bus.state dev.devAddr)).2 ∧
    (testConnection w dev bus).dev = dev ∧
    (testConnection w dev bus).dev.configRegShdw = dev.configRegShdw := by
  simp [testConnection, Bus.beginTransmission, Bus.endTransmission]

/-- C12. Configuration round trip: for every object and every value `b`, in particular every
8-bit one, `getConfigRegShdw` after `configure(b)` returns `b` itself, and `configure`
leaves the device address alone. Neither function has the transport among its arguments
or results, their bodies not mentioning `_Wire`, so neither can issue a transport call. -/
theorem configure_getConfigRegShdw (dev : MCP342X) (b : Nat) :
    getConfigRegShdw (configure dev b) = b ∧ (configure dev b).configRegShdw = b ∧
      (configure dev b).devAddr = dev.devAddr :=
  ⟨rfl, rfl, rfl⟩

/-- C13. Cached-configuration invariant: `testConnection`, `startConversion()` and the four
read operations return the object as it was, cached configuration byte and device address,
for every transport, every transport state and every sample; for `getResult` this holds
for every fuel and every result it returns. `startConversion(channel)` and `configure`
leave the device address as it was; they are the two operations that store into the cached
byte, `configure` its argument and `startConversion(channel)` the byte with the channel
substituted. (`getConfigRegShdw` returns a value and no object.) -/
theorem cached_configuration_invariant (w : TwoWire σ) (dev : MCP342X) (bus : Bus σ)
    (data16 : Int16Cell) (data32 : Int32Cell) (channel configData : Nat) :
    (testConnection w dev bus).dev = dev ∧
    (startConversion w dev bus).dev = dev ∧
    (∀ (fuel : Nat) (r : ReadRet σ Int16Cell),
      getResult_int16 w fuel dev bus data16 = some r → r.dev = dev) ∧
    (checkforResult_int16 w dev bus data16).dev = dev ∧
    (∀ (fuel : Nat) (r : ReadRet σ Int32Cell),
      getResult_int32 w fuel dev bus data32 = some r → r.dev = dev) ∧
    (checkforResult_int32 w dev bus data32).dev = dev ∧
    (startConversion_channel w dev bus channel).dev =
      { devAddr := dev.devAddr,
        configRegShdw := substituteChannel dev.configRegShdw channel } ∧
    configure dev configData = { devAddr := dev.devAddr, configRegShdw := configData } := by
  refine ⟨rfl, rfl, ?_, ?_, ?_, ?_, rfl, rfl⟩
  · intro fuel r h
    by_cases hcfg : dev.configRegShdw &&& MCP342X_SIZE_MASK = MCP342X_SIZE_18BIT
    · rw [getResult_int16, if_pos hcfg] at h
      rw [← Option.some.inj h]
    · rw [getResult_int16, if_neg hcfg] at h
      exact (getResult_int16_loop_some w dev fuel bus data16 r (Run.result_eq_some h)).1
  · by_cases hcfg : dev.configRegShdw &&& MCP342X_SIZE_MASK = MCP342X_SIZE_18BIT
    · rw [checkforResult_int16, if_pos hcfg]
    · rw [checkforResult_int16_eq w dev bus data16 hcfg]
      split <;> rfl
  · intro fuel r h
    by_cases hcfg : dev.configRegShdw &&& MCP342X_SIZE_MASK = MCP342X_SIZE_18BIT
    · rw [getResult_int32, if_neg (not_not.mpr hcfg)] at h
      exact (getResult_int32_loop_some w dev fuel bus data32 r (Run.result_eq_some h)).1
    · rw [getResult_int32, if_pos hcfg] at h
      rw [← Option.some.inj h]
  · by_cases hcfg : dev.configRegShdw &&& MCP342X_SIZE_MASK = MCP342X_SIZE_18BIT
    · rw [checkforResult_int32_eq w dev bus data32 hcfg]
      split <;> rfl
    · rw [checkforResult_int32, if_pos hcfg]

/-- Witness of C13: on a transport that fails the write transactions and delivers a not-ready
frame, a ready frame and then a short one, every operation but `startConversion(channel)`
returns the object with the byte `0x18` it had, and `startConversion(0x20)` returns it with
`0x38`. -/
theorem cached_configuration_invariant_witness :
    (testConnection scripted { devAddr := 0x68, configRegShdw := 0x18 }
        (scriptedBus [[1, 2, 0x98], [3, 4, 0x18], [5]] [2])).dev =
      { devAddr := 0x68, configRegShdw := 0x18 } ∧
    (startConversion scripted { devAddr := 0x68, configRegShdw := 0x18 }
        (scriptedBus [[1, 2, 0x98], [3, 4, 0x18], [5]] [2])).dev =
      { devAddr := 0x68, configRegShdw := 0x18 } ∧
    (∃ r, getResult_int16 scripted 2 { devAddr := 0x68, configRegShdw := 0x18 }
        (scriptedBus [[1, 2, 0x98], [3, 4, 0x18], [5]] [2]) { byte0 := 0, byte1 := 0 } =
        some r ∧ r.dev = { devAddr := 0x68, configRegShdw := 0x18 }) ∧
    (checkforResult_int16 scripted { devAddr := 0x68, configRegShdw := 0x18 }
        (scriptedBus [[1, 2, 0x98], [3, 4, 0x18], [5]] [2]) { byte0 := 0, byte1 := 0 }).dev =
      { devAddr := 0x68, configRegShdw := 0x18 } ∧
    (startConversion_channel scripted { devAddr := 0x68, configRegShdw := 0x18 }
        (scriptedBus [[1, 2, 0x98], [3, 4, 0x18], [5]] [2]) 0x20).dev =
      { devAddr := 0x68, configRegShdw := 0x38 } := by
  have h := cached_configuration_invariant scripted
    { devAddr := 0x68, configRegShdw := 0x18 }
    (scriptedBus [[1, 2, 0x98], [3, 4, 0x18], [5]] [2]) { byte0 := 0, byte1 := 0 }
    { byte0 := 0, byte1 := 0, byte2 := 0, byte3 := 0 } 0x20 0
  obtain ⟨h1, h2, h3, h4, -, -, h7, -⟩ := h
  refine ⟨h1, h2, ?_, h4, ?_⟩
  · have hg : ∃ r, getResult_int16 scripted 2 { devAddr := 0x68, configRegShdw := 0x18 }
        (scriptedBus [[1, 2, 0x98], [3, 4, 0x18], [5]] [2]) { byte0 := 0, byte1 := 0 } =
        some r := ⟨_, rfl⟩
    obtain ⟨r, hr⟩ := hg
    exact ⟨r, hr, h3 2 r hr⟩
  · have hsub : substituteChannel 0x18 0x20 = 0x38 := by
      rw [substituteChannel_eq 0x20 (by decide), ldiff_channel_mask (by decide)]
      decide
    rw [h7]
    show MCP342X.mk 0x68 (substituteChannel 0x18 0x20) = _
    rw [hsub]

/-- Counterexample to C14: on a full-length frame `0x12 0x34` whose status `0x88` says not
ready, followed by a frame that is one byte short, `getResult` returns `0xFF` because the
second request delivered the wrong byte count, and the sample, which held `0`, holds
`0x1234` (16-bit variant) resp. the bytes `0x56 0x34 0x12` above its lowest byte (18-bit
variant). -/
theorem sample_unwritten_on_failure_counterexample :
    (scripted.failsAtPoll 0x68 3 (scriptedBus [[0x12, 0x34, 0x88], [0x56, 0x78]] []).state 1 ∧
      ∃ r, getResult_int16 scripted 2 { devAddr := 0x68, configRegShdw := 0x08 }
          (scriptedBus [[0x12, 0x34, 0x88], [0x56, 0x78]] []) { byte0 := 0, byte1 := 0 } =
          some r ∧
        r.status = 0xFF ∧ r.data = { byte0 := 0x34, byte1 := 0x12 } ∧
        r.data.toInt = 0x1234 ∧ Int16Cell.toInt { byte0 := 0, byte1 := 0 } = 0) ∧
    (scripted.failsAtPoll 0x68 4
        (scriptedBus [[0x12, 0x34, 0x56, 0x8C], [0x01, 0x02, 0x03]] []).state 1 ∧
      ∃ r, getResult_int32 scripted 2 { devAddr := 0x68, configRegShdw := 0x0C }
          (scriptedBus [[0x12, 0x34, 0x56, 0x8C], [0x01, 0x02, 0x03]] [])
          { byte0 := 0, byte1 := 0, byte2 := 0, byte3 := 0 } = some r ∧
        r.status = 0xFF ∧
        r.data = { byte0 := 0, byte1 := 0x56, byte2 := 0x34, byte3 := 0x12 } ∧
        r.data.toInt = 0x12345600 ∧
        Int32Cell.toInt { byte0 := 0, byte1 := 0, byte2 := 0, byte3 := 0 } = 0) := by
  refine ⟨⟨?_, _, rfl, rfl, rfl, by decide, by decide⟩, ⟨?_, _, rfl, rfl, rfl, by decide, by decide⟩⟩
  · refine ⟨fun j hj => ?_, by decide⟩
    obtain rfl : j = 0 := by omega
    exact ⟨by decide, by decide⟩
  · refine ⟨fun j hj => ?_, by decide⟩
    obtain rfl : j = 0 := by omega
    exact ⟨by decide, by decide⟩

/-- C14, amended. When a read operation returns `0xFF` on a width mismatch, the sample is as
it was before the call; so it is when `checkforResult` returns `0xFF` because its request
delivered the wrong byte count. When `getResult` returns `0xFF` because a request delivered
the wrong byte count after the full-length frames `busy`, all not ready, the sample holds
what the loop stored from the last of these frames, `hi lo` as the two bytes of the 16-bit
sample, resp. `b2 b1 b0` as the three upper bytes of the 32-bit sample above its old lowest
byte, with no shift applied; it is as before the call only when `busy` is empty, that is
when the failing request is the first of the call. -/
theorem sample_after_failed_read {σ τ : Type} (w16 : TwoWire σ) (w32 : TwoWire τ)
    (dev16 dev32 : MCP342X) (bus16 : Bus σ) (bus32 : Bus τ) (data16 : Int16Cell)
    (data32 : Int32Cell) (busy16 busy32 : List (List Nat)) (fuel16 fuel32 : Nat) :
    ((dev16.configRegShdw &&& MCP342X_SIZE_MASK = MCP342X_SIZE_18BIT →
        getResult_int16 w16 fuel16 dev16 bus16 data16 =
          some { status := 0xFF, data := data16, dev := dev16, bus := bus16 } ∧
        checkforResult_int16 w16 dev16 bus16 data16 =
          { status := 0xFF, data := data16, dev := dev16, bus := bus16 }) ∧
      (w16.pollCount dev16.devAddr 3 bus16.state ≠ 3 →
        (checkforResult_int16 w16 dev16 bus16 data16).status = 0xFF ∧
        (checkforResult_int16 w16 dev16 bus16 data16).data = data16) ∧
      (dev16.configRegShdw &&& MCP342X_SIZE_MASK ≠ MCP342X_SIZE_18BIT →
        w16.answers dev16.devAddr 3 bus16.state busy16 →
        (∀ f ∈ busy16, frameStatus f &&& MCP342X_RDY ≠ 0) →
        w16.pollCount dev16.devAddr 3
          (w16.afterPolls dev16.devAddr 3 busy16.length bus16.state) ≠ 3 →
        busy16.length < fuel16 →
        ∃ r, getResult_int16 w16 fuel16 dev16 bus16 data16 = some r ∧ r.status = 0xFF ∧
          r.data = data16.afterFrames busy16)) ∧
    ((dev32.configRegShdw &&& MCP342X_SIZE_MASK ≠ MCP342X_SIZE_18BIT →
        getResult_int32 w32 fuel32 dev32 bus32 data32 =
          some { status := 0xFF, data := data32, dev := dev32, bus := bus32 } ∧
        checkforResult_int32 w32 dev32 bus32 data32 =
          { status := 0xFF, data := data32, dev := dev32, bus := bus32 }) ∧
      (w32.pollCount dev32.devAddr 4 bus32.state ≠ 4 →
        (checkforResult_int32 w32 dev32 bus32 data32).status = 0xFF ∧
        (checkforResult_int32 w32 dev32 bus32 data32).data = data32) ∧
      (dev32.configRegShdw &&& MCP342X_SIZE_MASK = MCP342X_SIZE_18BIT →
        w32.answers dev32.devAddr 4 bus32.state busy32 →
        (∀ f ∈ busy32, frameStatus f &&& MCP342X_RDY ≠ 0) →
        w32.pollCount dev32.devAddr 4
          (w32.afterPolls dev32.devAddr 4 busy32.length bus32.state) ≠ 4 →
        busy32.length < fuel32 →
        ∃ r, getResult_int32 w32 fuel32 dev32 bus32 data32 = some r ∧ r.status = 0xFF ∧
          r.data = data32.afterFrames busy32)) := by
  refine ⟨⟨?_, ?_, ?_⟩, ⟨?_, ?_, ?_⟩⟩
  · intro hcfg
    exact ⟨by rw [getResult_int16, if_pos hcfg], by rw [checkforResult_int16, if_pos hcfg]⟩
  · intro hshort
    by_cases hcfg : dev16.configRegShdw &&& MCP342X_SIZE_MASK = MCP342X_SIZE_18BIT
    · rw [checkforResult_int16, if_pos hcfg]
      exact ⟨rfl, rfl⟩
    · rw [checkforResult_int16_eq w16 dev16 _ data16 hcfg, if_neg hshort]
      exact ⟨rfl, rfl⟩
  · intro hcfg hbusy hnr hshort hfuel
    obtain ⟨k, rfl⟩ := Nat.exists_eq_add_of_lt hfuel
    have hg := getResult_int16_loop_short w16 dev16 k
      { state := w16.afterPolls dev16.devAddr 3 busy16.length bus16.state,
        calls := bus16.calls ++ pollCalls dev16.devAddr 3 busy16.length }
      (busy16.foldl Int16Cell.store data16) hshort
    rw [← getResult_int16_loop_busy w16 dev16 (k + 1) busy16 bus16 data16 hnr hbusy,
      ← Nat.add_assoc] at hg
    exact ⟨_, by rw [getResult_int16, if_neg hcfg, hg]; rfl, rfl,
      Int16Cell.foldl_store16 busy16 data16
        (w16.answers_length dev16.devAddr 3 busy16 bus16.state hbusy)⟩
  · intro hcfg
    exact ⟨by rw [getResult_int32, if_pos hcfg], by rw [checkforResult_int32, if_pos hcfg]⟩
  · intro hshort
    by_cases hcfg : dev32.configRegShdw &&& MCP342X_SIZE_MASK = MCP342X_SIZE_18BIT
    · rw [checkforResult_int32_eq w32 dev32 _ data32 hcfg, if_neg hshort]
      exact ⟨rfl, rfl⟩
    · rw [checkforResult_int32, if_pos hcfg]
      exact ⟨rfl, rfl⟩
  · intro hcfg hbusy hnr hshort hfuel
    obtain ⟨k, rfl⟩ := Nat.exists_eq_add_of_lt hfuel
    have hg := getResult_int32_loop_short w32 dev32 k
      { state := w32.afterPolls dev32.devAddr 4 busy32.length bus32.state,
        calls := bus32.calls ++ pollCalls dev32.devAddr 4 busy32.length }
      (busy32.foldl Int32Cell.store data32) hshort
    rw [← getResult_int32_loop_busy w32 dev32 (k + 1) busy32 bus32 data32 hnr hbusy,
      ← Nat.add_assoc] at hg
    exact ⟨_, by rw [getResult_int32, if_neg (not_not.mpr hcfg), hg]; rfl, rfl,
      Int32Cell.foldl_store32 busy32 data32
        (w32.answers_length dev32.devAddr 4 busy32 bus32.state hbusy)⟩

/-- Witness of the amended C14: a first request that comes short leaves the 16-bit sample
`0x0102` as it was, for `getResult` and for `checkforResult`; a short request after the
not-ready frame `0x12 0x34 0x56` leaves the bytes `0x56 0x34 0x12` above the old lowest
byte `0xAA` of the 32-bit sample. -/
theorem sample_after_failed_read_witness :
    ((∃ r, getResult_int16 scripted 1 { devAddr := 0x68, configRegShdw := 0x08 }
          (scriptedBus [[0x56, 0x78]] []) { byte0 := 0x02, byte1 := 0x01 } = some r ∧
        r.status = 0xFF ∧ r.data = { byte0 := 0x02, byte1 := 0x01 }) ∧
      (checkforResult_int16 scripted { devAddr := 0x68, configRegShdw := 0x08 }
          (scriptedBus [[0x56, 0x78]] []) { byte0 := 0x02, byte1 := 0x01 }).status = 0xFF ∧
      (checkforResult_int16 scripted { devAddr := 0x68, configRegShdw := 0x08 }
          (scriptedBus [[0x56, 0x78]] []) { byte0 := 0x02, byte1 := 0x01 }).data =
        { byte0 := 0x02, byte1 := 0x01 }) ∧
    (∃ r, getResult_int32 scripted 2 { devAddr := 0x68, configRegShdw := 0x0C }
        (scriptedBus [[0x12, 0x34, 0x56, 0x8C], [0x01, 0x02, 0x03]] [])
        { byte0 := 0xAA, byte1 := 0xBB, byte2 := 0xCC, byte3 := 0xDD } = some r ∧
      r.status = 0xFF ∧
      r.data = { byte0 := 0xAA, byte1 := 0x56, byte2 := 0x34, byte3 := 0x12 }) := by
  have h := sample_after_failed_read scripted scripted
    { devAddr := 0x68, configRegShdw := 0x08 } { devAddr := 0x68, configRegShdw := 0x0C }
    (scriptedBus [[0x56, 0x78]] [])
    (scriptedBus [[0x12, 0x34, 0x56, 0x8C], [0x01, 0x02, 0x03]] [])
    { byte0 := 0x02, byte1 := 0x01 }
    { byte0 := 0xAA, byte1 := 0xBB, byte2 := 0xCC, byte3 := 0xDD }
    [] [[0x12, 0x34, 0x56, 0x8C]] 1 2
  obtain ⟨⟨-, hchk, hget⟩, ⟨-, -, hget'⟩⟩ := h
  obtain ⟨r, hr, hs, hd⟩ := hget (by decide) (by simp [TwoWire.answers]) (by simp)
    (by decide) (by decide)
  obtain ⟨r', hr', hs', hd'⟩ := hget' (by decide)
    (by simp [TwoWire.answers, TwoWire.delivers, TwoWire.readsGive, scripted, scriptedBus])
    (by simp [frameStatus, MCP342X_RDY]) (by decide) (by decide)
  refine ⟨⟨⟨r, hr, hs, ?_⟩, hchk (by decide)⟩, ⟨r', hr', hs', ?_⟩⟩
  · rw [hd]; rfl
  · rw [hd']; rfl

/-- C15, at the failing input: under the configuration `0x7F` (18-bit) the transport delivers
the full four bytes `0x00 0x01 0x02 0xFF`, and `checkforResult(int32_t*)` returns `0xFF`;
under the configuration `0x08` (16-bit) it delivers the full three bytes `0x01 0x02 0xFF`, and
`checkforResult(int16_t*)` returns `0xFF`. In both runs the configuration matches the width
and the one request delivered the full count. -/
theorem checkforResult_returns_delivered_0xFF :
    (0x7F &&& MCP342X_SIZE_MASK = MCP342X_SIZE_18BIT ∧
      scripted.pollCount 0x68 4 (scriptedBus [[0x00, 0x01, 0x02, 0xFF]] []).state = 4 ∧
      (checkforResult_int32 scripted { devAddr := 0x68, configRegShdw := 0x7F }
        (scriptedBus [[0x00, 0x01, 0x02, 0xFF]] [])
        { byte0 := 0, byte1 := 0, byte2 := 0, byte3 := 0 }).status = 0xFF ∧
      (checkforResult_int32 scripted { devAddr := 0x68, configRegShdw := 0x7F }
        (scriptedBus [[0x00, 0x01, 0x02, 0xFF]] [])
        { byte0 := 0, byte1 := 0, byte2 := 0, byte3 := 0 }).bus.calls =
        [WireCall.requestFrom 0x68 4, WireCall.read, WireCall.read, WireCall.read,
          WireCall.read]) ∧
    (0x08 &&& MCP342X_SIZE_MASK ≠ MCP342X_SIZE_18BIT ∧
      scripted.pollCount 0x68 3 (scriptedBus [[0x01, 0x02, 0xFF]] []).state = 3 ∧
      (checkforResult_int16 scripted { devAddr := 0x68, configRegShdw := 0x08 }
        (scriptedBus [[0x01, 0x02, 0xFF]] []) { byte0 := 0, byte1 := 0 }).status = 0xFF ∧
      (checkforResult_int16 scripted { devAddr := 0x68, configRegShdw := 0x08 }
        (scriptedBus [[0x01, 0x02, 0xFF]] []) { byte0 := 0, byte1 := 0 }).bus.calls =
        [WireCall.requestFrom 0x68 3, WireCall.read, WireCall.read, WireCall.read]) :=
  ⟨⟨by decide, by decide, by decide, rfl⟩, ⟨by decide, by decide, by decide, rfl⟩⟩

/-- C17. Status returned by the blocking read: whenever `getResult` returns, over any
transport and with any fuel, the returned status is `0xFF` or has its ready bit clear; and
it is `0xFF` if and only if the configuration did not match the width or some poll of the
run (reached through polls that all reported the full count and not ready) reported the
wrong byte count. -/
theorem getResult_status {σ τ : Type} (w16 : TwoWire σ) (w32 : TwoWire τ)
    (dev16 dev32 : MCP342X) (bus16 : Bus σ) (bus32 : Bus τ) (data16 : Int16Cell)
    (data32 : Int32Cell) (fuel16 fuel32 : Nat) (r16 : ReadRet σ Int16Cell)
    (r32 : ReadRet τ Int32Cell)
    (h16 : getResult_int16 w16 fuel16 dev16 bus16 data16 = some r16)
    (h32 : getResult_int32 w32 fuel32 dev32 bus32 data32 = some r32) :
    ((r16.status = 0xFF ∨ r16.status &&& MCP342X_RDY = 0) ∧
      (r16.status = 0xFF ↔
        dev16.configRegShdw &&& MCP342X_SIZE_MASK = MCP342X_SIZE_18BIT ∨
          ∃ k, w16.failsAtPoll dev16.devAddr 3 bus16.state k)) ∧
    ((r32.status = 0xFF ∨ r32.status &&& MCP342X_RDY = 0) ∧
      (r32.status = 0xFF ↔
        dev32.configRegShdw &&& MCP342X_SIZE_MASK ≠ MCP342X_SIZE_18BIT ∨
          ∃ k, w32.failsAtPoll dev32.devAddr 4 bus32.state k)) := by
  constructor
  · by_cases hcfg : dev16.configRegShdw &&& MCP342X_SIZE_MASK = MCP342X_SIZE_18BIT
    · rw [getResult_int16, if_pos hcfg] at h16
      have hr := Option.some.inj h16
      subst hr
      exact ⟨Or.inl rfl, ⟨fun _ => Or.inl hcfg, fun _ => rfl⟩⟩
    · rw [getResult_int16, if_neg hcfg] at h16
      obtain ⟨-, hor, hiff⟩ := getResult_int16_loop_some w16 dev16 fuel16 bus16 data16 r16
        (Run.result_eq_some h16)
      refine ⟨hor, hiff.trans ⟨Or.inr, ?_⟩⟩
      rintro (h | h)
      · exact absurd h hcfg
      · exact h
  · by_cases hcfg : dev32.configRegShdw &&& MCP342X_SIZE_MASK = MCP342X_SIZE_18BIT
    · rw [getResult_int32, if_neg (not_not.mpr hcfg)] at h32
      obtain ⟨-, hor, hiff⟩ := getResult_int32_loop_some w32 dev32 fuel32 bus32 data32 r32
        (Run.result_eq_some h32)
      refine ⟨hor, hiff.trans ⟨Or.inr, ?_⟩⟩
      rintro (h | h)
      · exact absurd hcfg h
      · exact h
    · rw [getResult_int32, if_pos hcfg] at h32
      have hr := Option.some.inj h32
      subst hr
      exact ⟨Or.inl rfl, ⟨fun _ => Or.inl hcfg, fun _ => rfl⟩⟩

/-- Witness of C17: a frame with status `0xFF` does not end the 16-bit loop, which returns
the status `0x08` of the next frame; the 18-bit loop returns `0xFF` on a frame that is one
byte short, its first poll. -/
theorem getResult_status_witness :
    (∃ r, getResult_int16 scripted 2 { devAddr := 0x68, configRegShdw := 0x08 }
        (scriptedBus [[0x01, 0x02, 0xFF], [0x03, 0x04, 0x08]] [])
        { byte0 := 0, byte1 := 0 } = some r ∧ r.status = 0x08 ∧
      (r.status = 0xFF ↔
        0x08 &&& MCP342X_SIZE_MASK = MCP342X_SIZE_18BIT ∨
          ∃ k, scripted.failsAtPoll 0x68 3
            (scriptedBus [[0x01, 0x02, 0xFF], [0x03, 0x04, 0x08]] []).state k)) ∧
    (∃ r, getResult_int32 scripted 2 { devAddr := 0x68, configRegShdw := 0x0C }
        (scriptedBus [[0x01, 0x02, 0x03]] [])
        { byte0 := 0, byte1 := 0, byte2 := 0, byte3 := 0 } = some r ∧ r.status = 0xFF ∧
      (r.status = 0xFF ↔
        0x0C &&& MCP342X_SIZE_MASK ≠ MCP342X_SIZE_18BIT ∨
          ∃ k, scripted.failsAtPoll 0x68 4 (scriptedBus [[0x01, 0x02, 0x03]] []).state k)) :=
  ⟨⟨_, rfl, rfl,
      (getResult_status scripted scripted { devAddr := 0x68, configRegShdw := 0x08 }
        { devAddr := 0x68, configRegShdw := 0x0C }
        (scriptedBus [[0x01, 0x02, 0xFF], [0x03, 0x04, 0x08]] [])
        (scriptedBus [[0x01, 0x02, 0x03]] []) { byte0 := 0, byte1 := 0 }
        { byte0 := 0, byte1 := 0, byte2 := 0, byte3 := 0 } 2 2 _ _ rfl rfl).1.2⟩,
    ⟨_, rfl, rfl,
      (getResult_status scripted scripted { devAddr := 0x68, configRegShdw := 0x08 }
        { devAddr := 0x68, configRegShdw := 0x0C }
        (scriptedBus [[0x01, 0x02, 0xFF], [0x03, 0x04, 0x08]] [])
        (scriptedBus [[0x01, 0x02, 0x03]] []) { byte0 := 0, byte1 := 0 }
        { byte0 := 0, byte1 := 0, byte2 := 0, byte3 := 0 } 2 2 _ _ rfl rfl).2.2⟩⟩

/-- C18. Blocking and non-blocking reads agree on a first-poll outcome: when the
configuration does not match the width, or the first request reports the wrong byte count,
or the status byte taken from the first poll has the ready bit clear, `getResult` (with
fuel for at least one loop body) returns exactly what `checkforResult` of the same width
returns: the same status, the same sample, the same object and the same transport state
and call log; that log holds one `requestFrom` more than before the call, and nothing more
at all on a mismatch. -/
theorem getResult_checkforResult_agree {σ τ : Type} (w16 : TwoWire σ) (w32 : TwoWire τ)
    (dev16 dev32 : MCP342X) (bus16 : Bus σ) (bus32 : Bus τ) (data16 : Int16Cell)
    (data32 : Int32Cell) (fuel16 fuel32 : Nat)
    (h16 : dev16.configRegShdw &&& MCP342X_SIZE_MASK = MCP342X_SIZE_18BIT ∨
      w16.pollCount dev16.devAddr 3 bus16.state ≠ 3 ∨
      w16.pollStatus dev16.devAddr 3 bus16.state &&& MCP342X_RDY = 0)
    (h32 : dev32.configRegShdw &&& MCP342X_SIZE_MASK ≠ MCP342X_SIZE_18BIT ∨
      w32.pollCount dev32.devAddr 4 bus32.state ≠ 4 ∨
      w32.pollStatus dev32.devAddr 4 bus32.state &&& MCP342X_RDY = 0) :
    (getResult_int16 w16 (fuel16 + 1) dev16 bus16 data16 =
        some (checkforResult_int16 w16 dev16 bus16 data16) ∧
      (checkforResult_int16 w16 dev16 bus16 data16).bus.calls =
        (if dev16.configRegShdw &&& MCP342X_SIZE_MASK = MCP342X_SIZE_18BIT then bus16.calls
         else bus16.calls ++ WireCall.requestFrom dev16.devAddr 3 ::
           List.replicate (if w16.pollCount dev16.devAddr 3 bus16.state = 3 then 3 else 0)
             WireCall.read)) ∧
    (getResult_int32 w32 (fuel32 + 1) dev32 bus32 data32 =
        some (checkforResult_int32 w32 dev32 bus32 data32) ∧
      (checkforResult_int32 w32 dev32 bus32 data32).bus.calls =
        (if dev32.configRegShdw &&& MCP342X_SIZE_MASK ≠ MCP342X_SIZE_18BIT then bus32.calls
         else bus32.calls ++ WireCall.requestFrom dev32.devAddr 4 ::
           List.replicate (if w32.pollCount dev32.devAddr 4 bus32.state = 4 then 4 else 0)
             WireCall.read)) := by
  constructor
  · by_cases hcfg : dev16.configRegShdw &&& MCP342X_SIZE_MASK = MCP342X_SIZE_18BIT
    · rw [getResult_int16, if_pos hcfg, checkforResult_int16, if_pos hcfg, if_pos hcfg]
      exact ⟨rfl, rfl⟩
    · rw [getResult_int16, if_neg hcfg, getResult_int16_loop_succ,
        checkforResult_int16_eq w16 dev16 bus16 data16 hcfg, if_neg hcfg]
      by_cases hc : w16.pollCount dev16.devAddr 3 bus16.state = 3
      · have hs : w16.pollStatus dev16.devAddr 3 bus16.state &&& MCP342X_RDY = 0 := by
          rcases h16 with h | h | h
          · exact absurd h hcfg
          · exact absurd hc h
          · exact h
        rw [if_pos hc, if_pos hc, if_pos hc, if_neg (not_not.mpr hs)]
        exact ⟨rfl, rfl⟩
      · rw [if_neg hc, if_neg hc, if_neg hc]
        exact ⟨rfl, rfl⟩
  · by_cases hcfg : dev32.configRegShdw &&& MCP342X_SIZE_MASK = MCP342X_SIZE_18BIT
    · rw [getResult_int32, if_neg (not_not.mpr hcfg), getResult_int32_loop_succ,
        checkforResult_int32_eq w32 dev32 bus32 data32 hcfg, if_neg (not_not.mpr hcfg)]
      by_cases hc : w32.pollCount dev32.devAddr 4 bus32.state = 4
      · have hs : w32.pollStatus dev32.devAddr 4 bus32.state &&& MCP342X_RDY = 0 := by
          rcases h32 with h | h | h
          · exact absurd hcfg h
          · exact absurd hc h
          · exact h
        rw [if_pos hc, if_pos hc, if_pos hc, if_neg (not_not.mpr hs)]
        exact ⟨rfl, rfl⟩
      · rw [if_neg hc, if_neg hc, if_neg hc]
        exact ⟨rfl, rfl⟩
    · rw [getResult_int32, if_pos hcfg, checkforResult_int32, if_pos hcfg, if_pos hcfg]
      exact ⟨rfl, rfl⟩

/-- Witness of C18: on a first frame that is ready both 16-bit reads return the status `0x08`
and the sample `0x1234` after one request; on a first frame that is one byte short both
18-bit reads return `0xFF` after one request and leave the sample as it was. -/
theorem getResult_checkforResult_agree_witness :
    (getResult_int16 scripted 1 { devAddr := 0x68, configRegShdw := 0x08 }
        (scriptedBus [[0x12, 0x34, 0x08]] []) { byte0 := 0, byte1 := 0 } =
        some (checkforResult_int16 scripted { devAddr := 0x68, configRegShdw := 0x08 }
          (scriptedBus [[0x12, 0x34, 0x08]] []) { byte0 := 0, byte1 := 0 }) ∧
      (checkforResult_int16 scripted { devAddr := 0x68, configRegShdw := 0x08 }
          (scriptedBus [[0x12, 0x34, 0x08]] []) { byte0 := 0, byte1 := 0 }).status = 0x08 ∧
      (checkforResult_int16 scripted { devAddr := 0x68, configRegShdw := 0x08 }
          (scriptedBus [[0x12, 0x34, 0x08]] []) { byte0 := 0, byte1 := 0 }).data.toInt =
        0x1234) ∧
    (getResult_int32 scripted 1 { devAddr := 0x68, configRegShdw := 0x0C }
        (scriptedBus [[0x01, 0x02, 0x03]] [])
        { byte0 := 0xAA, byte1 := 0xBB, byte2 := 0xCC, byte3 := 0xDD } =
        some (checkforResult_int32 scripted { devAddr := 0x68, configRegShdw := 0x0C }
          (scriptedBus [[0x01, 0x02, 0x03]] [])
          { byte0 := 0xAA, byte1 := 0xBB, byte2 := 0xCC, byte3 := 0xDD }) ∧
      (checkforResult_int32 scripted { devAddr := 0x68, configRegShdw := 0x0C }
          (scriptedBus [[0x01, 0x02, 0x03]] [])
          { byte0 := 0xAA, byte1 := 0xBB, byte2 := 0xCC, byte3 := 0xDD }).status = 0xFF ∧
      (checkforResult_int32 scripted { devAddr := 0x68, configRegShdw := 0x0C }
          (scriptedBus [[0x01, 0x02, 0x03]] [])
          { byte0 := 0xAA, byte1 := 0xBB, byte2 := 0xCC, byte3 := 0xDD }).bus.calls =
        [WireCall.requestFrom 0x68 4]) := by
  have h := getResult_checkforResult_agree scripted scripted
    { devAddr := 0x68, configRegShdw := 0x08 } { devAddr := 0x68, configRegShdw := 0x0C }
    (scriptedBus [[0x12, 0x34, 0x08]] []) (scriptedBus [[0x01, 0x02, 0x03]] [])
    { byte0 := 0, byte1 := 0 } { byte0 := 0xAA, byte1 := 0xBB, byte2 := 0xCC, byte3 := 0xDD }
    0 0 (Or.inr (Or.inr (by decide))) (Or.inr (Or.inl (by decide)))
  exact ⟨⟨h.1.1, by decide, by decide⟩, ⟨h.2.1, by decide, rfl⟩⟩

/-- C19. `startConversion(channel)` is not atomic on failure: for every cached configuration
byte `c`, every channel argument and every transport whose `endTransmission` for this
transaction reports a failure (a result other than `0`), the call returns false and the
cached byte is all the same `(c & ~MCP342X_CHANNEL_MASK) | (channel &
MCP342X_CHANNEL_MASK)`; and the object after the call is the same over any other
transport `w'`, whatever that one reports. -/
theorem startConversion_channel_not_atomic {σ τ : Type} (w : TwoWire σ) (w' : TwoWire τ)
    (dev : MCP342X) (bus : Bus σ) (bus' : Bus τ) (channel : Nat)
    (hc : dev.configRegShdw < 256)
    (hfail : (w.endTransmission (w.write (w.beginTransmission bus.state dev.devAddr)
      (((dev.configRegShdw &&& (0xFF ^^^ MCP342X_CHANNEL_MASK)) |||
        (channel &&& MCP342X_CHANNEL_MASK)) ||| MCP342X_RDY))).1 ≠ 0) :
    (startConversion_channel w dev bus channel).value = false ∧
    (startConversion_channel w dev bus channel).dev.configRegShdw =
      (dev.configRegShdw &&& (0xFF ^^^ MCP342X_CHANNEL_MASK)) |||
        (channel &&& MCP342X_CHANNEL_MASK) ∧
    (((startConversion_channel w dev bus channel).dev.configRegShdw : Nat) : Int) =
      Int.lor (Int.land dev.configRegShdw (~~~(MCP342X_CHANNEL_MASK : Int)))
        (Int.land channel MCP342X_CHANNEL_MASK) ∧
    (startConversion_channel w' dev bus' channel).dev =
      (startConversion_channel w dev bus channel).dev := by
  have hnew : (startConversion_channel w dev bus channel).dev.configRegShdw =
      substituteChannel dev.configRegShdw channel := rfl
  have hsub : substituteChannel dev.configRegShdw channel =
      (dev.configRegShdw &&& (0xFF ^^^ MCP342X_CHANNEL_MASK)) |||
        (channel &&& MCP342X_CHANNEL_MASK) := by
    rw [substituteChannel_eq channel hc, ldiff_channel_mask hc]
  have hlt : substituteChannel dev.configRegShdw channel < 256 := substituteChannel_lt _ _
  refine ⟨?_, hnew.trans hsub, ?_, rfl⟩
  · rw [← hsub] at hfail
    simp only [startConversion_channel, Bus.beginTransmission, Bus.write, Bus.endTransmission,
      toUInt8_lor_rdy hlt]
    simpa using hfail
  · rw [hnew, substituteChannel_eq channel hc, substituteChannel_int]

/-- Witness of C19: with the cached byte `0x1B` and a transport that reports `2`,
`startConversion(0x40)` returns false and the cached byte is `0x5B`, as it is over a
transport that reports `0`. -/
theorem startConversion_channel_not_atomic_witness :
    (startConversion_channel scripted { devAddr := 0x68, configRegShdw := 0x1B }
        (scriptedBus [] [2]) 0x40).value = false ∧
    (startConversion_channel scripted { devAddr := 0x68, configRegShdw := 0x1B }
        (scriptedBus [] [2]) 0x40).dev.configRegShdw = 0x5B ∧
    (startConversion_channel scripted { devAddr := 0x68, configRegShdw := 0x1B }
        (scriptedBus [] [0]) 0x40).dev =
      (startConversion_channel scripted { devAddr := 0x68, configRegShdw := 0x1B }
        (scriptedBus [] [2]) 0x40).dev := by
  have h := startConversion_channel_not_atomic scripted scripted
    { devAddr := 0x68, configRegShdw := 0x1B } (scriptedBus [] [2]) (scriptedBus [] [0]) 0x40
    (by decide) (by decide)
  obtain ⟨hv, hn, -, hsame⟩ := h
  refine ⟨hv, ?_, hsame⟩
  rw [hn]; decide

end MCP342X
